import Mathlib

/-!
Verification of the intent-resolution and execution pipeline of the
ai-crm-assistant repository (src/core/agent.py, src/core/fallback_ai_agent.py,
src/core/ai_services/mock_ai_service.py, src/adapters/base_adapter.py).

The Python code is shallowly embedded: Python dynamic values are modelled by
the `Json` inductive (numbers as exact decimals; CPython float rounding and
the IEEE specials NaN/Infinity accepted by `json.loads` are outside the
model), Python dicts by association lists with last-write-wins update,
exceptions by `Except PyErr`, and the external NLU/CRM collaborators by
explicit environment records whose outcomes parameterize each operation.
-/

namespace CrmSpec

/-- Model of a Python runtime exception: its class name and its `str(e)` text. -/
structure PyErr where
  ty : String
  msg : String
deriving DecidableEq

/-- Exact decimal number: value `mant / 10 ^ exp10`.  JSON number literals are
decimal, so this represents every literal exactly (CPython instead rounds to
binary float64; that rounding, and the IEEE specials, are not modelled). -/
structure JNum where
  mant : ℤ
  exp10 : ℕ
deriving DecidableEq

/-- The rational value of a decimal number, for specification statements. -/
def JNum.toRat (a : JNum) : ℚ := (a.mant : ℚ) / 10 ^ a.exp10

/-- Decide `a ≤ b` on decimals by cross multiplication. -/
def JNum.le (a b : JNum) : Bool := a.mant * 10 ^ b.exp10 ≤ b.mant * 10 ^ a.exp10

/-- An integer as a decimal number. -/
def JNum.int (n : ℤ) : JNum := ⟨n, 0⟩

/-- Dynamic values flowing through the Python code (JSON values / dict contents). -/
inductive Json where
  | null : Json
  | bool (b : Bool) : Json
  | num (q : JNum) : Json
  | str (s : String) : Json
  | arr (xs : List Json) : Json
  | obj (kvs : List (String × Json)) : Json

/-- An integer constant as a dynamic value. -/
def Json.int (n : ℤ) : Json := .num (JNum.int n)

/-- Python truthiness (`if x:`) for the modelled values. -/
def Json.truthy : Json → Bool
  | .null => false
  | .bool b => b
  | .num q => q.mant ≠ 0
  | .str s => s ≠ ""
  | .arr xs => !xs.isEmpty
  | .obj kvs => !kvs.isEmpty

/-- Association-list lookup (first match; parsed objects hold unique keys). -/
def assocFind (kvs : List (String × Json)) (k : String) : Option Json :=
  match kvs with
  | [] => none
  | (k', v) :: rest => if k' = k then some v else assocFind rest k

/-- `d.get(k, default)` on a Python dict. -/
def dictGetD (kvs : List (String × Json)) (k : String) (dflt : Json) : Json :=
  (assocFind kvs k).getD dflt

/-- `d.get(k)` on a Python dict (missing key gives `None`). -/
def dictGet (kvs : List (String × Json)) (k : String) : Json :=
  dictGetD kvs k .null

/-- Insert with last-write-wins overwrite, mirroring Python dict assignment. -/
def assocSet (kvs : List (String × Json)) (k : String) (v : Json) :
    List (String × Json) :=
  match kvs with
  | [] => [(k, v)]
  | (k', v') :: rest =>
      if k' = k then (k', v) :: rest else (k', v') :: assocSet rest k v

/-- `x == "lit"` between a dynamic value and a Python string literal. -/
def Json.eqStr (j : Json) (s : String) : Bool :=
  match j with
  | .str t => t = s
  | _ => false

/-- Characters `str.strip()` removes (ASCII whitespace; the sources only strip
ASCII whitespace in the texts the claims exercise). -/
def isPyWs (c : Char) : Bool :=
  c = ' ' || c = '\t' || c = '\n' || c = '\r' || c = '\x0b' || c = '\x0c'

/-- `s.strip()`. -/
def pyStrip (s : String) : String :=
  String.mk (((s.toList.dropWhile isPyWs).reverse.dropWhile isPyWs).reverse)

/-- ASCII `str.lower()` (the keyword tables the code lowercases against are
ASCII or Chinese; Chinese characters are unaffected by `lower`). -/
def pyLower (s : String) : String :=
  String.mk (s.toList.map Char.toLower)

/-- Python `in` on strings: substring containment. -/
def strContains (hay needle : String) : Bool :=
  let h := hay.toList
  let n := needle.toList
  (List.range (h.length + 1)).any (fun i => (h.drop i).take n.length = n)

/-- `str(x)` for the dynamic values the dispatcher stringifies (f-strings and
`str(...)` casts).  Rationals with denominator 1 print as integers; the
int/float distinction of CPython reprs is not tracked. -/
def padLeftZeros (s : String) (n : Nat) : String :=
  if s.length ≥ n then s
  else String.mk (List.replicate (n - s.length) '0') ++ s

/-- Render a decimal number (integers without a decimal point; the CPython
`int` versus `float` repr distinction is not tracked). -/
def JNum.render (a : JNum) : String :=
  let sign := if a.mant < 0 then "-" else ""
  let abs := a.mant.natAbs
  if a.exp10 = 0 then sign ++ toString abs
  else
    let p := 10 ^ a.exp10
    sign ++ toString (abs / p) ++ "." ++ padLeftZeros (toString (abs % p)) a.exp10

def pyStr : Json → String
  | .null => "None"
  | .bool b => if b then "True" else "False"
  | .num q => q.render
  | .str s => s
  | .arr _ => "[...]"
  | .obj _ => "\x7b...\x7d"

/-! ### Model of `json.loads`

A strict recursive-descent parser over the character list, with fuel bounded
by the input length (every recursive call consumes at least one character).
Mirrors CPython `json.loads` on: whitespace handling, the six value forms,
rejection of trailing data, leading-zero and bare-dot number rejection,
string escapes (`\uXXXX` consumed as a code point; surrogate pairing is not
modelled), and last-write-wins duplicate object keys. -/

def isJsonWs (c : Char) : Bool :=
  c = ' ' || c = '\t' || c = '\n' || c = '\r'

def skipWs : List Char → List Char
  | c :: cs => if isJsonWs c then skipWs cs else c :: cs
  | [] => []

def hexVal (c : Char) : Option Nat :=
  if '0' ≤ c ∧ c ≤ '9' then some (c.toNat - '0'.toNat)
  else if 'a' ≤ c ∧ c ≤ 'f' then some (c.toNat - 'a'.toNat + 10)
  else if 'A' ≤ c ∧ c ≤ 'F' then some (c.toNat - 'A'.toNat + 10)
  else none

/-- Parse the body of a JSON string after the opening quote. -/
def parseStr : List Char → Option (String × List Char) :=
  go []
where
  go (acc : List Char) : List Char → Option (String × List Char)
    | [] => none
    | '"' :: rest => some (String.mk acc.reverse, rest)
    | '\\' :: esc :: rest =>
        match esc with
        | '"' => go ('"' :: acc) rest
        | '\\' => go ('\\' :: acc) rest
        | '/' => go ('/' :: acc) rest
        | 'b' => go ('\x08' :: acc) rest
        | 'f' => go ('\x0c' :: acc) rest
        | 'n' => go ('\n' :: acc) rest
        | 'r' => go ('\r' :: acc) rest
        | 't' => go ('\t' :: acc) rest
        | 'u' =>
            match rest with
            | a :: b :: c :: d :: rest' =>
                match hexVal a, hexVal b, hexVal c, hexVal d with
                | some x, some y, some z, some w =>
                    let n := ((x * 16 + y) * 16 + z) * 16 + w
                    go (Char.ofNat n :: acc) rest'
                | _, _, _, _ => none
            | _ => none
        | _ => none
    | c :: rest =>
        if c.toNat < 0x20 then none else go (c :: acc) rest

/-- Take a maximal run of ASCII digits. -/
def takeDigits (cs : List Char) : List Char × List Char :=
  match cs with
  | c :: rest =>
      if c.isDigit then
        let (ds, rest') := takeDigits rest
        (c :: ds, rest')
      else ([], cs)
  | [] => ([], [])

def digitsToNat (ds : List Char) : Nat :=
  ds.foldl (fun acc c => acc * 10 + (c.toNat - '0'.toNat)) 0

/-- Apply a base-ten exponent to a decimal number, exactly. -/
def JNum.shift (a : JNum) (eneg : Bool) (e : Nat) : JNum :=
  if eneg then ⟨a.mant, a.exp10 + e⟩
  else if e ≥ a.exp10 then ⟨a.mant * 10 ^ (e - a.exp10), 0⟩
  else ⟨a.mant, a.exp10 - e⟩

/-- Parse a JSON number (integer part, optional fraction, optional exponent). -/
def parseNum (cs : List Char) : Option (JNum × List Char) :=
  let (neg, cs₁) := match cs with
    | '-' :: rest => (true, rest)
    | _ => (false, cs)
  let (ints, cs₂) := takeDigits cs₁
  if ints.isEmpty then none
  else if ints.length > 1 ∧ ints.headI = '0' then none
  else
    let (base, cs₃) : JNum × List Char :=
      match cs₂ with
      | '.' :: rest =>
          let (fds, rest') := takeDigits rest
          if fds.isEmpty then (⟨0, 0⟩, cs₂)
          else
            (⟨(digitsToNat ints * 10 ^ fds.length + digitsToNat fds : ℤ),
               fds.length⟩, rest')
      | _ => (⟨(digitsToNat ints : ℤ), 0⟩, cs₂)
    let fracBad : Bool := match cs₂ with
      | '.' :: rest => (takeDigits rest).1.isEmpty
      | _ => false
    if fracBad then none
    else
      let signed : JNum := if neg then ⟨-base.mant, base.exp10⟩ else base
      match cs₃ with
      | 'e' :: rest => parseExp signed rest
      | 'E' :: rest => parseExp signed rest
      | _ => some (signed, cs₃)
where
  parseExp (base : JNum) (cs : List Char) : Option (JNum × List Char) :=
    let (eneg, cs') := match cs with
      | '-' :: rest => (true, rest)
      | '+' :: rest => (false, rest)
      | _ => (false, cs)
    let (eds, cs'') := takeDigits cs'
    if eds.isEmpty then none
    else some (base.shift eneg (digitsToNat eds), cs'')

mutual

/-- Parse one JSON value from the input. -/
def parseVal (fuel : Nat) (cs : List Char) : Option (Json × List Char) :=
  match fuel with
  | 0 => none
  | fuel + 1 =>
    match skipWs cs with
    | [] => none
    | c :: rest =>
      if c = 'n' then
        match rest with
        | 'u' :: 'l' :: 'l' :: rest' => some (.null, rest')
        | _ => none
      else if c = 't' then
        match rest with
        | 'r' :: 'u' :: 'e' :: rest' => some (.bool true, rest')
        | _ => none
      else if c = 'f' then
        match rest with
        | 'a' :: 'l' :: 's' :: 'e' :: rest' => some (.bool false, rest')
        | _ => none
      else if c = '"' then
        match parseStr rest with
        | some (s, rest') => some (.str s, rest')
        | none => none
      else if c = '[' then
        match skipWs rest with
        | ']' :: rest' => some (.arr [], rest')
        | rest' => parseArrItems fuel rest' []
      else if c = '\x7b' then
        match skipWs rest with
        | '\x7d' :: rest' => some (.obj [], rest')
        | rest' => parseObjItems fuel rest' []
      else
        match parseNum (c :: rest) with
        | some (q, rest') => some (.num q, rest')
        | none => none

/-- Parse array elements after `[` (non-empty case). -/
def parseArrItems (fuel : Nat) (cs : List Char) (acc : List Json) :
    Option (Json × List Char) :=
  match fuel with
  | 0 => none
  | fuel + 1 =>
    match parseVal fuel cs with
    | none => none
    | some (v, rest) =>
      match skipWs rest with
      | ',' :: rest' => parseArrItems fuel rest' (v :: acc)
      | ']' :: rest' => some (.arr (v :: acc).reverse, rest')
      | _ => none

/-- Parse object members after `{` (non-empty case). -/
def parseObjItems (fuel : Nat) (cs : List Char) (acc : List (String × Json)) :
    Option (Json × List Char) :=
  match fuel with
  | 0 => none
  | fuel + 1 =>
    match skipWs cs with
    | '"' :: rest =>
      match parseStr rest with
      | none => none
      | some (k, rest₁) =>
        match skipWs rest₁ with
        | ':' :: rest₂ =>
          match parseVal fuel rest₂ with
          | none => none
          | some (v, rest₃) =>
            match skipWs rest₃ with
            | ',' :: rest₄ => parseObjItems fuel rest₄ (assocSet acc k v)
            | '\x7d' :: rest₄ => some (.obj (assocSet acc k v), rest₄)
            | _ => none
        | _ => none
    | _ => none

end

/-- Model of `json.loads`: parse exactly one document, tolerating surrounding
whitespace, rejecting trailing data.  `none` stands for `json.JSONDecodeError`. -/
def pyJsonLoads (s : String) : Option Json :=
  match parseVal (s.length + 1) s.toList with
  | some (v, rest) => if (skipWs rest).isEmpty then some v else none
  | none => none

/-! ### More Python string primitives -/

/-- `s.startswith(pre)`. -/
def pyStartsWith (s pre : String) : Bool :=
  s.toList.take pre.length = pre.toList

/-- `s.endswith(suf)`. -/
def pyEndsWith (s suf : String) : Bool :=
  s.toList.reverse.take suf.length = suf.toList.reverse

/-- `s[n:]`. -/
def strDropLeft (s : String) (n : Nat) : String :=
  String.mk (s.toList.drop n)

/-- `s[:-n]` for positive `n`. -/
def strDropRight (s : String) (n : Nat) : String :=
  String.mk (s.toList.take (s.toList.length - n))

/-- `s.find(sub)`: index of the first occurrence, or `none` for `-1`. -/
def pyFind (s sub : String) : Option Nat :=
  let cs := s.toList
  let n := sub.toList
  (List.range (cs.length + 1)).findIdx? (fun i => (cs.drop i).take n.length = n)

/-- `s.replace(old, new)` for non-empty `old` (left-to-right, non-overlapping). -/
def pyReplace (s old new : String) : String :=
  String.mk (go s.toList.length s.toList)
where
  go (fuel : Nat) (cs : List Char) : List Char :=
    match fuel, cs with
    | 0, cs => cs
    | _, [] => []
    | fuel + 1, c :: rest =>
        if old.toList ≠ [] ∧ cs.take old.toList.length = old.toList then
          new.toList ++ go fuel (cs.drop old.toList.length)
        else
          c :: go fuel rest

/-- `s.split('\n')`. -/
def pySplitLines (s : String) : List String :=
  (go s.toList [] []).reverse
where
  go (cs : List Char) (cur : List Char) (acc : List String) : List String :=
    match cs with
    | [] => String.mk cur.reverse :: acc
    | '\n' :: rest => go rest [] (String.mk cur.reverse :: acc)
    | c :: rest => go rest (c :: cur) acc

/-! ### Intent data model (src/core/agent.py `Intent`)

The dataclass annotates `action`/`entity_type` as `str`, `parameters` as a
dict and `confidence` as a float, but CPython does not enforce annotations:
every field holds whatever the decoded JSON supplied, so each is modelled as
a dynamic value. -/

structure Intent where
  action : Json
  entity_type : Json
  parameters : Json
  confidence : Json

/-- `Intent(action='unknown', entity_type='unknown', parameters={}, confidence=0.0)`:
the zero-confidence unknown intent returned on decode failure. -/
def unknown_intent : Intent :=
  ⟨.str "unknown", .str "unknown", .obj [], .num ⟨0, 0⟩⟩

/-! ### `AiAgent._parse_intent_response` (src/core/agent.py lines 687-714) -/

/-- The fence-stripping clean-up of lines 690-696: strip, drop a leading
` ```json ` marker and a trailing ` ``` ` marker, strip again. -/
def clean_response (ai_response : String) : String :=
  let c0 := pyStrip ai_response
  let c1 := if pyStartsWith c0 "```json" then strDropLeft c0 7 else c0
  let c2 := if pyEndsWith c1 "```" then strDropRight c1 3 else c1
  pyStrip c2

/-- `AiAgent._parse_intent_response`.  `json.JSONDecodeError` (and `KeyError`)
are caught, yielding the unknown intent; but when the document decodes to a
non-object value, `response_data.get(...)` raises an uncaught
`AttributeError`, modelled by the `.error` branch. -/
def parse_intent_response (ai_response : String) : Except PyErr Intent :=
  match pyJsonLoads (clean_response ai_response) with
  | none => .ok unknown_intent
  | some (.obj kvs) =>
      .ok ⟨dictGetD kvs "action" (.str "unknown"),
           dictGetD kvs "entity_type" (.str "unknown"),
           dictGetD kvs "parameters" (.obj []),
           dictGetD kvs "confidence" (.num ⟨0, 0⟩)⟩
  | some _ =>
      .error ⟨"AttributeError", "object has no attribute get"⟩

/-! ### FallbackAiAgent extraction helpers (src/core/fallback_ai_agent.py 215-232)

The regex scanners are modelled as direct left-to-right character scans.
Word-class runs are taken maximally, which matches the greedy regexes on all
inputs without pathological backtracking; no claim inspects these outputs. -/

def isEmailLocalChar (c : Char) : Bool :=
  c.isAlpha || c.isDigit || c = '_' || c = '.' || c = '+' || c = '-'

def isEmailDomChar (c : Char) : Bool :=
  c.isAlpha || c.isDigit || c = '-'

def isEmailTailChar (c : Char) : Bool :=
  c.isAlpha || c.isDigit || c = '-' || c = '.'

/-- Try `[A-Za-z0-9_.+-]+@[A-Za-z0-9-]+\.[A-Za-z0-9-.]+` anchored here. -/
def emailAt (cs : List Char) : Option (List Char) :=
  let loc := cs.takeWhile isEmailLocalChar
  if loc.isEmpty then none
  else
    match cs.drop loc.length with
    | '@' :: rest =>
        let dom := rest.takeWhile isEmailDomChar
        if dom.isEmpty then none
        else
          match rest.drop dom.length with
          | '.' :: rest₂ =>
              let tl := rest₂.takeWhile isEmailTailChar
              if tl.isEmpty then none
              else some (loc ++ '@' :: (dom ++ '.' :: tl))
          | _ => none
    | _ => none

/-- Leftmost match of an anchored scanner (`re.search` semantics). -/
def scanFirst (f : List Char → Option (List Char)) : List Char → Option (List Char)
  | [] => f []
  | c :: cs =>
      match f (c :: cs) with
      | some r => some r
      | none => scanFirst f cs

/-- `FallbackAiAgent._extract_email`. -/
def fb_extract_email (text : String) : Option String :=
  (scanFirst emailAt text.toList).map String.mk

/-- Try `1[3-9]\d{9}` anchored here. -/
def phoneAt (cs : List Char) : Option (List Char) :=
  match cs with
  | '1' :: c :: rest =>
      if '3' ≤ c ∧ c ≤ '9' then
        let ds := (rest.take 9)
        if ds.length = 9 ∧ ds.all Char.isDigit then some ('1' :: c :: ds) else none
      else none
  | _ => none

/-- `FallbackAiAgent._extract_phone`. -/
def fb_extract_phone (text : String) : Option String :=
  (scanFirst phoneAt text.toList).map String.mk

/-- The word class `[一-龥A-Za-z0-9_]` (CJK ideograph, ASCII
alphanumeric or underscore). -/
def isCjkWordChar (c : Char) : Bool :=
  (0x4e00 ≤ c.toNat ∧ c.toNat ≤ 0x9fa5) || c.isAlpha || c.isDigit || c = '_'

/-- `FallbackAiAgent._extract_name_after_keyword`. -/
def fb_extract_name_after_keyword (text : String) (keywords : List String) :
    Option String :=
  match keywords with
  | [] => none
  | kw :: rest =>
      match pyFind text kw with
      | some idx =>
          let after := pyStrip (strDropLeft text (idx + kw.toList.length))
          let run := after.toList.takeWhile isCjkWordChar
          if run.isEmpty then fb_extract_name_after_keyword text rest
          else some (String.mk run)
      | none => fb_extract_name_after_keyword text rest

/-- Build a parameters dict from optional fields, dropping non-truthy values
(the `{k: v for k, v in {...}.items() if v}` comprehensions). -/
def optParams (fields : List (String × Option String)) : List (String × Json) :=
  fields.foldr
    (fun (kv : String × Option String) acc =>
      match kv.2 with
      | some v => if v ≠ "" then (kv.1, Json.str v) :: acc else acc
      | none => acc)
    []

/-- `FallbackAiAgent._rule_based_intent` (lines 176-213). -/
def rule_based_intent (prompt : String) : Json :=
  let p := pyStrip prompt
  let lower := pyLower p
  if strContains p "创建客户" ∨ (strContains lower "create" ∧ strContains lower "customer") then
    .obj [("action", .str "create"),
          ("entity_type", .str "customer"),
          ("parameters", .obj (optParams
            [("name", fb_extract_name_after_keyword p ["创建客户", "客户", "customer"]),
             ("email", fb_extract_email p),
             ("phone", fb_extract_phone p)])),
          ("confidence", .num ⟨6, 1⟩)]
  else if strContains p "查询客户" ∨ strContains p "搜索客户" ∨ strContains p "查找客户" ∨
      (strContains lower "search" ∧ strContains lower "customer") then
    .obj [("action", .str "search"),
          ("entity_type", .str "customer"),
          ("parameters", .obj (optParams
            [("name", fb_extract_name_after_keyword p
                ["查询客户", "搜索客户", "查找客户", "客户", "customer"])])),
          ("confidence", .num ⟨6, 1⟩)]
  else
    .obj [("action", .str "unknown"),
          ("entity_type", .str "unknown"),
          ("parameters", .obj []),
          ("confidence", .num ⟨0, 0⟩)]

/-- Model of `re.search(r"\{.*\}", text, re.S)`: the greedy match runs from
the first opening brace to the last closing brace after it, if any. -/
def extract_braces (text : String) : Option String :=
  let cs := text.toList
  match cs.findIdx? (fun c => c = '{') with
  | none => none
  | some i =>
      match cs.reverse.findIdx? (fun c => c = '}') with
      | none => none
      | some r =>
          let j := cs.length - 1 - r
          if i < j then some (String.mk ((cs.drop i).take (j - i + 1))) else none

/-- `FallbackAiAgent._robust_parse_intent_result` (lines 142-174).  The input
is the dynamic value returned by `ai_service.parse_intent` (a string for
every service in the repository).  Internal `ValueError`s for `None`/blank
input are caught by the enclosing handler, which answers with the rule-based
fallback, so the function never raises. -/
def robust_parse_intent_result (result : Json) (prompt : String) : Json :=
  match result with
  | .null => rule_based_intent prompt
  | .obj kvs => .obj kvs
  | r =>
      let text := pyStrip (pyStr r)
      if text = "" then rule_based_intent prompt
      else
        match pyJsonLoads text with
        | some v => v
        | none =>
            match extract_braces text with
            | some sub =>
                match pyJsonLoads sub with
                | some v => v
                | none => rule_based_intent prompt
            | none => rule_based_intent prompt

/-! ### Model of `json.dumps(..., ensure_ascii=False)` -/

/-- Escape one character as CPython's json encoder does (non-ASCII verbatim
because `ensure_ascii=False` at every dump site in the mock service). -/
def dumpChar (c : Char) : String :=
  if c = '"' then "\\\""
  else if c = '\\' then "\\\\"
  else if c = '\n' then "\\n"
  else if c = '\r' then "\\r"
  else if c = '\t' then "\\t"
  else if c = '\x08' then "\\b"
  else if c = '\x0c' then "\\f"
  else if c.toNat < 0x20 then
    "\\u00" ++ String.mk [hexDigit (c.toNat / 16), hexDigit (c.toNat % 16)]
  else String.mk [c]
where
  hexDigit (n : Nat) : Char :=
    if n < 10 then Char.ofNat ('0'.toNat + n) else Char.ofNat ('a'.toNat + n - 10)

def dumpStr (s : String) : String :=
  "\"" ++ String.join (s.toList.map dumpChar) ++ "\""

/-- Serializer, structurally recursive on a fuel bound (`sizeOf` dominates
nesting depth, so the fuel never runs out at the call below). -/
def dumpsF : Nat → Json → String
  | 0, _ => ""
  | _ + 1, .null => "null"
  | _ + 1, .bool true => "true"
  | _ + 1, .bool false => "false"
  | _ + 1, .num q => q.render
  | _ + 1, .str s => dumpStr s
  | fuel + 1, .arr xs =>
      "[" ++ String.intercalate ", " (xs.map fun x => dumpsF fuel x) ++ "]"
  | fuel + 1, .obj kvs =>
      "\x7b" ++ String.intercalate ", "
        (kvs.map fun kv => dumpStr kv.1 ++ ": " ++ dumpsF fuel kv.2) ++ "\x7d"

/-- Serialize a value with the default separators.  The decimal renderer
prints integral floats without a trailing `.0` (CPython would print `1.0`);
re-parsing yields the same number, and no claim inspects the dumped text.
The only dump sites are the mock service's literal dictionaries, whose
nesting depth is at most 3, far below the fuel. -/
def Json.dumps (j : Json) : String := dumpsF 32 j

/-! ### MockAIService (src/core/ai_services/mock_ai_service.py)

The degraded provider installed by the fallback controller.  Its regex
extraction helpers are modelled as left-to-right scans taking word-class runs
maximally; `\b` anchors and intra-position backtracking of the originals are
approximated (no claim inspects those extraction results). -/

/-- One pattern of `_extract_user_input_from_prompt`: after the first
occurrence of `marker`, skip whitespace; in quoted mode expect a `"`-wrapped
non-empty capture, otherwise capture up to the end of the line.  The result is
stripped and must be non-empty (`matches[0].strip()`). -/
def extractAfterMarker (prompt marker : String) (quoted : Bool) : Option String :=
  match pyFind prompt marker with
  | none => none
  | some idx =>
      let after := (strDropLeft prompt (idx + marker.toList.length)).toList.dropWhile isPyWs
      if quoted then
        match after with
        | '"' :: rest =>
            let cap := rest.takeWhile (fun c => c ≠ '"')
            if cap.isEmpty ∨ (rest.drop cap.length).isEmpty then none
            else
              let s := pyStrip (String.mk cap)
              if s = "" then none else some s
        | _ => none
      else
        let cap := after.takeWhile (fun c => c ≠ '\n')
        if cap.isEmpty then none
        else
          let s := pyStrip (String.mk cap)
          if s = "" then none else some s

/-- The keyword list of the reversed-line fallback scan. -/
def userInputLineKeywords : List String :=
  ["创建", "新增", "客户", "你好", "搜索", "编辑", "修改"]

/-- The reversed-line fallback of `_extract_user_input_from_prompt`. -/
def scanLinesForInput : List String → String
  | [] => ""
  | l :: rest =>
      let line := pyStrip l
      if line ≠ "" ∧ ¬pyStartsWith line "You are" ∧ ¬pyStartsWith line "Analyze" ∧
          ¬pyStartsWith line "Recent" ∧
          userInputLineKeywords.any (fun w => strContains (pyLower line) w) then
        line
      else scanLinesForInput rest

/-- `MockAIService._extract_user_input_from_prompt` (lines 225-259). -/
def mock_extract_user_input (prompt : String) : String :=
  match extractAfterMarker prompt "User input:" true with
  | some s => s
  | none =>
  match extractAfterMarker prompt "User input:" false with
  | some s => s
  | none =>
  match extractAfterMarker prompt "用户输入：" true with
  | some s => s
  | none =>
  match extractAfterMarker prompt "用户输入:" true with
  | some s => s
  | none =>
  match extractAfterMarker prompt "用户输入：" false with
  | some s => s
  | none =>
  match extractAfterMarker prompt "用户输入:" false with
  | some s => s
  | none => scanLinesForInput (pySplitLines prompt).reverse

def isMockEmailLocalChar (c : Char) : Bool :=
  c.isAlpha || c.isDigit || c = '.' || c = '_' || c = '%' || c = '+' || c = '-'

def isMockEmailDomChar (c : Char) : Bool :=
  c.isAlpha || c.isDigit || c = '.' || c = '-'

/-- Try `[A-Za-z0-9._%+-]+@[A-Za-z0-9.-]+\.[A-Za-z]{2,}` anchored here: the
domain run must end with a dot followed by at least two letters. -/
def mockEmailAt (cs : List Char) : Option (List Char) :=
  let loc := cs.takeWhile isMockEmailLocalChar
  if loc.isEmpty then none
  else
    match cs.drop loc.length with
    | '@' :: rest =>
        let dom := rest.takeWhile isMockEmailDomChar
        let lastDot := dom.reverse.findIdx? (fun c => c = '.')
        match lastDot with
        | none => none
        | some r =>
            if r ≥ 2 ∧ (dom.reverse.take r).all Char.isAlpha then
              some (loc ++ '@' :: dom)
            else none
    | _ => none

/-- Try `\d{3,4}-\d{7,8}` anchored here. -/
def landlineAt (cs : List Char) : Option (List Char) :=
  let d1 := cs.takeWhile Char.isDigit
  if 3 ≤ d1.length ∧ d1.length ≤ 4 then
    match cs.drop d1.length with
    | '-' :: rest =>
        let d2 := rest.takeWhile Char.isDigit
        if 7 ≤ d2.length ∧ d2.length ≤ 8 then some (d1 ++ '-' :: d2) else none
    | _ => none
  else none

/-- Characters the `[^，。！？\s]` capture class accepts. -/
def isCnCaptureChar (c : Char) : Bool :=
  ¬(c = '，' ∨ c = '。' ∨ c = '！' ∨ c = '？' ∨ isPyWs c)

/-- Capture `[^，。！？\s]{2,max}` right after the first occurrence of `marker`. -/
def captureAfter (text marker : String) (maxLen : Nat) : Option String :=
  match pyFind text marker with
  | none => none
  | some idx =>
      let after := (strDropLeft text (idx + marker.toList.length)).toList
      let run := (after.takeWhile isCnCaptureChar).take maxLen
      if run.length ≥ 2 then some (String.mk run) else none

/-- Capture `在([^，。！？\s]{2,20})公司`: the text between the first `在` and
the next `公司` after it, when it fits the capture class. -/
def captureCompanyIn (text : String) : Option String :=
  match pyFind text "在" with
  | none => none
  | some idx =>
      let after := strDropLeft text (idx + 1)
      match pyFind after "公司" with
      | none => none
      | some j =>
          let cap := after.toList.take j
          if 2 ≤ cap.length ∧ cap.length ≤ 20 ∧ cap.all isCnCaptureChar then
            some (String.mk cap)
          else none

/-- `MockAIService._extract_customer_info` (lines 170-210): entities dict in
insertion order email, phone, name, company. -/
def mock_extract_customer_info (text : String) : List (String × Json) :=
  let email := (scanFirst mockEmailAt text.toList).map String.mk
  let phone :=
    match scanFirst (fun cs =>
        match phoneAt cs with
        | some r => some r
        | none => landlineAt cs) text.toList with
    | some r => some (String.mk r)
    | none => none
  let name :=
    match captureAfter text "名叫" 10 with
    | some n => some n
    | none =>
    match captureAfter text "名是" 10 with
    | some n => some n
    | none =>
    match captureAfter text "我是" 10 with
    | some n => some n
    | none =>
    match captureAfter text "客户叫" 10 with
    | some n => some n
    | none => captureAfter text "客户是" 10
  let company :=
    match captureAfter text "公司叫" 20 with
    | some c => some c
    | none =>
    match captureAfter text "公司是" 20 with
    | some c => some c
    | none => captureCompanyIn text
  (match email with | some e => [("email", Json.str e)] | none => []) ++
  (match phone with | some p => [("phone", Json.str p)] | none => []) ++
  (match name with | some n => [("name", Json.str n)] | none => []) ++
  (match company with | some c => [("company", Json.str c)] | none => [])

/-- `MockAIService._extract_search_term` (lines 212-223). -/
def mock_extract_search_term (text : String) : String :=
  let t := ["搜索", "查找", "找", "search", "客户", "顾客", "customer"].foldl
    (fun acc kw => pyReplace acc kw "") text
  pyStrip t

def mockGreetingWords : List String := ["你好", "hello", "hi", "嗨", "您好"]
def mockCreateWords : List String := ["创建", "新增", "添加", "建立", "create"]
def mockCustomerWords : List String := ["客户", "顾客", "customer"]
def mockSearchWords : List String := ["搜索", "查找", "找", "search", "找一下"]
def mockUpdateWords : List String := ["编辑", "修改", "更新", "update", "改变"]

/-- `MockAIService.parse_intent` (lines 32-115): keyword dispatch over the
extracted user input, returning a dumped JSON string.  The `elif` ladder
means a matched leading keyword whose entity check fails falls through to the
default response, not to the later branches. -/
def mock_parse_intent (prompt : String) : String :=
  let extracted := mock_extract_user_input prompt
  let user_input := if extracted = "" then prompt else extracted
  let pl := pyStrip (pyLower user_input)
  let has (ws : List String) : Bool := ws.any (fun w => strContains pl w)
  if has mockGreetingWords then
    Json.dumps (.obj [("action", .str "greeting"), ("entity_type", .str "none"),
      ("parameters", .obj []), ("confidence", .num ⟨1, 0⟩),
      ("raw_input", .str user_input)])
  else if has mockCreateWords then
    if has mockCustomerWords then
      Json.dumps (.obj [("action", .str "create"), ("entity_type", .str "customer"),
        ("parameters", .obj (mock_extract_customer_info user_input)),
        ("confidence", .num ⟨8, 1⟩), ("raw_input", .str user_input)])
    else
      Json.dumps (.obj [("action", .str "unknown"), ("entity_type", .str "unknown"),
        ("parameters", .obj []), ("confidence", .num ⟨3, 1⟩),
        ("raw_input", .str user_input)])
  else if has mockSearchWords then
    if has mockCustomerWords then
      Json.dumps (.obj [("action", .str "search"), ("entity_type", .str "customer"),
        ("parameters", .obj [("name", .str (mock_extract_search_term user_input)),
          ("limit", Json.int 10)]),
        ("confidence", .num ⟨9, 1⟩), ("raw_input", .str user_input)])
    else
      Json.dumps (.obj [("action", .str "unknown"), ("entity_type", .str "unknown"),
        ("parameters", .obj []), ("confidence", .num ⟨3, 1⟩),
        ("raw_input", .str user_input)])
  else if has mockUpdateWords then
    if has mockCustomerWords then
      Json.dumps (.obj [("action", .str "update"), ("entity_type", .str "customer"),
        ("parameters", .obj (mock_extract_customer_info user_input)),
        ("confidence", .num ⟨8, 1⟩), ("raw_input", .str user_input)])
    else
      Json.dumps (.obj [("action", .str "unknown"), ("entity_type", .str "unknown"),
        ("parameters", .obj []), ("confidence", .num ⟨3, 1⟩),
        ("raw_input", .str user_input)])
  else
    Json.dumps (.obj [("action", .str "unknown"), ("entity_type", .str "unknown"),
      ("parameters", .obj []), ("confidence", .num ⟨3, 1⟩),
      ("raw_input", .str user_input)])

/-- `MockAIService.generate_response` (lines 117-151). -/
def mock_generate_response (prompt : String) : String :=
  let pl := pyStrip (pyLower prompt)
  if mockGreetingWords.any (fun w => strContains pl w) then
    "您好！我是AI CRM助手，可以帮助您管理客户、产品和订单。请问有什么可以帮助您的吗？"
  else if strContains pl "创建" ∧ strContains pl "客户" then
    "客户创建成功！我已经为您添加了新的客户信息。"
  else if strContains pl "搜索" ∧ strContains pl "客户" then
    "我已经为您搜索了相关客户信息，请查看搜索结果。"
  else if strContains pl "更新" ∨ strContains pl "修改" then
    "客户信息更新成功！修改已保存。"
  else if strContains pl "订单" then
    "订单操作已完成。"
  else
    "操作处理完成。如果您需要其他帮助，请随时告诉我。"

/-! ### CRM Port data model (src/adapters/base_adapter.py) -/

/-- `OperationResult` as the dispatcher consumes it.  `data`, `error_code`
and `error_details` are dynamic (`None` or any payload). -/
structure OperationResult where
  success : Bool
  message : String
  data : Json := .null
  error_code : Json := .null
  error_details : Json := .null

/-- `CustomerData` built by `_create_customer` (fields are the dynamic
parameter values). -/
structure CustomerData where
  name : Json
  email : Json
  phone : Json
  company : Json
  address : Json
  notes : Json

/-- `OrderData` built by `_create_order`: the product-id list in input order
and the quantity map keyed by product id. -/
structure OrderData where
  customer_id : Json
  product_ids : List Json
  quantity : List (Json × Json)
  notes : Json

/-- One outbound CRM Port call, with its arguments (the observable side
effects the safety claims count). -/
inductive CrmCall where
  | createCustomer (c : CustomerData)
  | searchCustomers (name email phone company limit : Json)
  | getCustomer (id : String)
  | updateCustomer (id : Json) (updates : List (String × Json))
  | searchProducts (query : String) (limit : Json)
  | createOrder (o : OrderData)

/-- The two response shapes `_search_products` tolerates: the bare list the
mock adapter returns, or a standard `OperationResult`. -/
inductive SearchProductsResp where
  | list (xs : List Json)
  | res (r : OperationResult)

/-- The CRM adapter as an environment: the response each operation would
return this turn. -/
structure CrmEnv where
  create_customer : OperationResult
  search_customers : OperationResult
  get_customer : String → OperationResult
  update_customer : OperationResult
  search_products : SearchProductsResp
  create_order : OperationResult

/-! ### Conversation context (src/core/agent.py `ConversationContext`) -/

/-- One stored history turn.  The wall-clock timestamp and the intent summary
are not modelled: no modelled path reads them back. -/
structure Turn where
  user_input : String
  result_message : String

structure ConversationContext where
  session_id : String
  user_id : String
  history : List Turn := []
  last_entity_mentioned : Json := .null
  active_customer_id : Json := .null
  active_customer_name : Json := .null

/-! ### Response envelope

The Python dispatcher returns plain dicts; the record below has one field
per key any modelled path sets, with `Option`/default values standing for
absent keys. -/

structure Envelope where
  success : Bool
  message : String
  clarification_needed : Bool := false
  suggested_intent : Option Intent := none
  missing_fields : List String := []
  customers : Option Json := none
  products : Option Json := none
  customer_id : Option Json := none
  customer_details : Option Json := none
  order_id : Option Json := none
  order_details : Option Json := none
  error_type : Option String := none
  error_details : Option Json := none
  is_friendly_error : Bool := false
  is_greeting : Bool := false
  is_introduction : Bool := false
  is_help : Bool := false

/-! ### Dynamic-attribute primitives used by the dispatcher -/

/-- `x.get(k)`: `AttributeError` unless `x` is a dict. -/
def pyGet (p : Json) (k : String) : Except PyErr Json :=
  match p with
  | .obj kvs => .ok (dictGet kvs k)
  | _ => .error ⟨"AttributeError", "object has no attribute get"⟩

/-- `x.get(k, d)`. -/
def pyGetD (p : Json) (k : String) (d : Json) : Except PyErr Json :=
  match p with
  | .obj kvs => .ok (dictGetD kvs k d)
  | _ => .error ⟨"AttributeError", "object has no attribute get"⟩

/-- `len(x)`. -/
def pyLen : Json → Except PyErr Nat
  | .str s => .ok s.toList.length
  | .arr xs => .ok xs.length
  | .obj kvs => .ok kvs.length
  | _ => .error ⟨"TypeError", "object has no len"⟩

/-- `x[0]`. -/
def pyIndex0 : Json → Except PyErr Json
  | .arr (x :: _) => .ok x
  | .arr [] => .error ⟨"IndexError", "list index out of range"⟩
  | .str s =>
      match s.toList with
      | c :: _ => .ok (.str (String.mk [c]))
      | [] => .error ⟨"IndexError", "string index out of range"⟩
  | .obj _ => .error ⟨"KeyError", "0"⟩
  | _ => .error ⟨"TypeError", "object is not subscriptable"⟩

/-- `for x in v`: list elements, string characters, or dict keys. -/
def pyIter : Json → Except PyErr (List Json)
  | .arr xs => .ok xs
  | .str s => .ok (s.toList.map fun c => .str (String.mk [c]))
  | .obj kvs => .ok (kvs.map fun kv => .str kv.1)
  | _ => .error ⟨"TypeError", "object is not iterable"⟩

/-- Python `a or b`. -/
def pyOr (a b : Json) : Json := if a.truthy then a else b

/-- `x is None`. -/
def Json.isNull : Json → Bool
  | .null => true
  | _ => false

/-- Map a fallible function over a list, stopping at the first error
(list-comprehension semantics). -/
def mapE (f : α → Except PyErr β) : List α → Except PyErr (List β)
  | [] => .ok []
  | x :: xs =>
      match f x with
      | .error e => .error e
      | .ok y =>
          match mapE f xs with
          | .error e => .error e
          | .ok ys => .ok (y :: ys)

/-- Python `==` between dict keys (numeric kinds compare by value). -/
def jsonKeyEq (a b : Json) : Bool :=
  match a, b with
  | .null, .null => true
  | .str x, .str y => x = y
  | .bool x, .bool y => x = y
  | .num x, .num y => x.le y ∧ y.le x
  | .bool x, .num y =>
      let q : JNum := if x then ⟨1, 0⟩ else ⟨0, 0⟩
      q.le y ∧ y.le q
  | .num x, .bool y =>
      let q : JNum := if y then ⟨1, 0⟩ else ⟨0, 0⟩
      x.le q ∧ q.le x
  | _, _ => false

/-- `d[k] = v` on a dict with dynamic keys (overwrite in place). -/
def assocSetJ (kvs : List (Json × Json)) (k v : Json) : List (Json × Json) :=
  match kvs with
  | [] => [(k, v)]
  | (k', v') :: rest =>
      if jsonKeyEq k' k then (k', v) :: rest else (k', v') :: assocSetJ rest k v

/-! ### Intent execution handlers (src/core/agent.py 363-604)

Each handler returns the (possibly raising) envelope, the context after the
handler's own mutations, and the CRM Port calls it issued, in order. -/

structure OpOut where
  result : Except PyErr Envelope
  ctx : ConversationContext
  calls : List CrmCall

/-- `AiAgent._create_customer` (lines 363-398). -/
def create_customer_op (crm : CrmEnv) (params : Json)
    (ctx : ConversationContext) : OpOut :=
  match pyGet params "name" with
  | .error e => ⟨.error e, ctx, []⟩
  | .ok name =>
    if ¬name.truthy then
      ⟨.ok { success := false,
             message := "I need a customer name to create a new customer. Could you provide that?",
             missing_fields := ["name"] }, ctx, []⟩
    else
      match params with
      | .obj kvs =>
        let customer : CustomerData :=
          ⟨dictGet kvs "name", dictGet kvs "email", dictGet kvs "phone",
           dictGet kvs "company", dictGet kvs "address", dictGet kvs "notes"⟩
        let result := crm.create_customer
        let calls := [CrmCall.createCustomer customer]
        if result.success then
          match (if result.data.truthy then pyGet result.data "customer_id" else .ok .null) with
          | .error e => ⟨.error e, ctx, calls⟩
          | .ok cid =>
            ⟨.ok { success := true,
                   message := "Successfully created customer: " ++ pyStr customer.name,
                   customer_id := some cid,
                   customer_details := some (if result.data.truthy then result.data else .obj []) },
             ctx, calls⟩
        else
          ⟨.ok { success := false,
                 message := "Failed to create customer: " ++ result.message,
                 error_details := some result.error_details }, ctx, calls⟩
      | _ => ⟨.error ⟨"AttributeError", "object has no attribute get"⟩, ctx, []⟩

/-- Render one customer line of the multi-match summary (lines 461-468). -/
def fmt_customer (c : Json) : Except PyErr String :=
  match c with
  | .obj kvs =>
      let extras :=
        (if (dictGet kvs "email").truthy then
          ["邮箱: " ++ pyStr (dictGet kvs "email")] else []) ++
        (if (dictGet kvs "phone").truthy then
          ["电话: " ++ pyStr (dictGet kvs "phone")] else []) ++
        (let comp := pyOr (dictGet kvs "company") (dictGet kvs "company_name")
         if comp.truthy then ["公司: " ++ pyStr comp] else [])
      let base := "- " ++ pyStr (dictGetD kvs "name" (.str "N/A")) ++
        " (ID: " ++ pyStr (dictGetD kvs "id" (.str "N/A")) ++ ")"
      .ok (if extras.isEmpty then base
           else base ++ "，" ++ String.intercalate "，" extras)
  | _ => .error ⟨"AttributeError", "object has no attribute get"⟩

/-- Render one customer line of the brief fallback list (lines 452-458). -/
def fmt_customer_brief (c : Json) : Except PyErr String :=
  match c with
  | .obj kvs =>
      .ok ("- " ++ pyStr (dictGetD kvs "name" (.str "N/A")) ++
        " (ID: " ++ pyStr (dictGetD kvs "id" (.str "N/A")) ++ ")")
  | _ => .error ⟨"AttributeError", "object has no attribute get"⟩

/-- The detailed single-customer message (lines 439-448). -/
def single_customer_message (kvs : List (String × Json)) : String :=
  "为您找到该客户的详细信息：\n" ++
  "- 姓名: " ++ pyStr (dictGetD kvs "name" (.str "N/A")) ++ "\n" ++
  "- ID: " ++ pyStr (dictGetD kvs "id" (.str "N/A")) ++ "\n" ++
  "- 邮箱: " ++ pyStr (dictGetD kvs "email" (.str "N/A")) ++ "\n" ++
  "- 电话: " ++ pyStr (dictGetD kvs "phone" (.str "N/A")) ++ "\n" ++
  "- 公司: " ++ pyStr (pyOr (dictGet kvs "company") (dictGetD kvs "company_name" (.str "N/A"))) ++ "\n" ++
  "- 地址: " ++ pyStr (dictGetD kvs "street" (dictGetD kvs "address" (.str "N/A"))) ++
  "\n\n我已记住该客户，后续更新信息可直接说明无需再提供ID。"

/-- Normalize the search response payload into the working customer list
(lines 420-427): a list `data` is used directly, a dict `data` contributes
its `customers` entry, anything else gives the empty list. -/
def normalize_customers (data : Json) : Json :=
  match data with
  | .arr xs => .arr xs
  | .obj kvs => dictGetD kvs "customers" (.arr [])
  | _ => .arr []

/-- The fallback brief list after a failed single-match detail fetch
(lines 450-458). -/
def brief_list_out (customers : Json) (ctx : ConversationContext)
    (calls : List CrmCall) : OpOut :=
  match pyIter customers with
  | .error e => ⟨.error e, ctx, calls⟩
  | .ok cs =>
    match mapE fmt_customer_brief cs with
    | .error e => ⟨.error e, ctx, calls⟩
    | .ok lines =>
      ⟨.ok { success := true,
             message := "为您找到以下客户：\n" ++ String.intercalate "\n" lines,
             customers := some customers }, ctx, calls⟩

/-- The multi-match summary (lines 459-473). -/
def multi_list_out (customers : Json) (ctx : ConversationContext)
    (calls : List CrmCall) : OpOut :=
  match pyIter customers with
  | .error e => ⟨.error e, ctx, calls⟩
  | .ok cs =>
    match mapE fmt_customer cs with
    | .error e => ⟨.error e, ctx, calls⟩
    | .ok lines =>
      ⟨.ok { success := true,
             message := "为您找到以下客户：\n" ++ String.intercalate "\n" lines,
             customers := some customers }, ctx, calls⟩

/-- `AiAgent._search_customers` (lines 400-483), including the
single-match auto-fetch and the session-memory write. -/
def search_customers_op (crm : CrmEnv) (params0 : Json)
    (ctx : ConversationContext) : OpOut :=
  let params : Json :=
    match params0 with
    | .str s => .obj [("name", .str s)]
    | .null => .obj []
    | p => p
  match params with
  | .obj kvs =>
    let result := crm.search_customers
    let call0 := CrmCall.searchCustomers (dictGet kvs "name") (dictGet kvs "email")
      (dictGet kvs "phone") (dictGet kvs "company") (dictGetD kvs "limit" (Json.int 10))
    if result.success then
      let customers := normalize_customers result.data
      if customers.truthy then
        match pyLen customers with
        | .error e => ⟨.error e, ctx, [call0]⟩
        | .ok n =>
          if n = 1 then
            match pyIndex0 customers with
            | .error e => ⟨.error e, ctx, [call0]⟩
            | .ok c0 =>
              match pyGet c0 "id" with
              | .error e => ⟨.error e, ctx, [call0]⟩
              | .ok c0id =>
                if ¬c0id.isNull then
                  let detail := crm.get_customer (pyStr c0id)
                  let calls := [call0, CrmCall.getCustomer (pyStr c0id)]
                  let detailOk : Bool :=
                    detail.success && (match detail.data with
                      | .obj dkvs => (dictGet dkvs "customer").truthy
                      | _ => false)
                  if detailOk then
                    match detail.data with
                    | .obj dkvs =>
                      match dictGet dkvs "customer" with
                      | .obj ckvs =>
                        let cid := dictGet ckvs "id"
                        let ctx' := { ctx with
                          active_customer_id := if ¬cid.isNull then .str (pyStr cid) else .null,
                          active_customer_name := dictGet ckvs "name" }
                        ⟨.ok { success := true,
                               message := single_customer_message ckvs,
                               customers := some (.arr [.obj ckvs]) }, ctx', calls⟩
                      | _ => ⟨.error ⟨"AttributeError", "object has no attribute get"⟩,
                              ctx, calls⟩
                    | _ => ⟨.error ⟨"AttributeError", "object has no attribute get"⟩,
                            ctx, calls⟩
                  else brief_list_out customers ctx calls
                else multi_list_out customers ctx [call0]
          else multi_list_out customers ctx [call0]
      else
        ⟨.ok { success := true, message := "未找到相关客户。",
               customers := some customers }, ctx, [call0]⟩
    else
      ⟨.ok { success := false, message := "搜索客户失败: " ++ result.message,
             customers := some (.arr []) }, ctx, [call0]⟩
  | _ => ⟨.error ⟨"AttributeError", "object has no attribute get"⟩, ctx, []⟩

/-- `AiAgent._update_customer` (lines 485-509), resolving a missing id from
the session's active-customer memory. -/
def update_customer_op (crm : CrmEnv) (params : Json)
    (ctx : ConversationContext) : OpOut :=
  match params with
  | .obj kvs =>
    let customer_id := dictGet kvs "id"
    let updates := kvs.filter fun kv => kv.1 != "id" && !kv.2.isNull
    let resolved : Option Json :=
      if customer_id.truthy then some customer_id
      else if ctx.active_customer_id.truthy then some ctx.active_customer_id
      else none
    match resolved with
    | none =>
        ⟨.ok { success := false,
               message := "更新客户需要提供客户ID（或先搜索并选择客户）" }, ctx, []⟩
    | some cid =>
        let result := crm.update_customer
        let calls := [CrmCall.updateCustomer cid updates]
        if result.success then
          ⟨.ok { success := true, message := "成功更新客户 " ++ pyStr cid ++ " 的信息。" },
           ctx, calls⟩
        else
          ⟨.ok { success := false, message := "更新客户失败: " ++ result.message },
           ctx, calls⟩
  | _ => ⟨.error ⟨"AttributeError", "object has no attribute get"⟩, ctx, []⟩

/-- `AiAgent._search_products` (lines 511-562): free-text query built from
`name`/`category`/`sku`, then both adapter response shapes normalized. -/
def search_products_op (crm : CrmEnv) (params : Json)
    (ctx : ConversationContext) : OpOut :=
  match params with
  | .obj kvs =>
    let query_parts :=
      (["name", "category", "sku"].filter fun f => (dictGet kvs f).truthy).map
        fun f => dictGet kvs f
    let queryE : Except PyErr String :=
      if query_parts.all (fun p => match p with | .str _ => true | _ => false) then
        .ok (String.intercalate " " (query_parts.map pyStr))
      else .error ⟨"TypeError", "sequence item expected str instance"⟩
    match queryE with
    | .error e => ⟨.error e, ctx, []⟩
    | .ok query =>
      let limit := dictGetD kvs "limit" (Json.int 10)
      let calls := [CrmCall.searchProducts query limit]
      match crm.search_products with
      | .list xs =>
          if !xs.isEmpty then
            ⟨.ok { success := true,
                   message := "Found " ++ toString xs.length ++ " matching products",
                   products := some (.arr xs) }, ctx, calls⟩
          else
            ⟨.ok { success := true, message := "No matching products found",
                   products := some (.arr []) }, ctx, calls⟩
      | .res r =>
          if r.success then
            match pyGetD r.data "products" (.arr []) with
            | .error e => ⟨.error e, ctx, calls⟩
            | .ok products =>
              if products.truthy then
                match pyLen products with
                | .error e => ⟨.error e, ctx, calls⟩
                | .ok n =>
                  ⟨.ok { success := true,
                         message := "Found " ++ toString n ++ " matching products",
                         products := some products }, ctx, calls⟩
              else
                ⟨.ok { success := true, message := "No matching products found",
                       products := some (.arr []) }, ctx, calls⟩
          else
            ⟨.ok { success := false,
                   message := "Failed to search products: " ++ r.message,
                   error_details := some r.error_details }, ctx, calls⟩
  | _ => ⟨.error ⟨"AttributeError", "object has no attribute get"⟩, ctx, []⟩

/-- `AiAgent._create_order` (lines 564-604): require `customer_id` and a
non-empty `products`, build the id list and quantity map (quantity defaults
to 1), call `create_order` once. -/
def create_order_op (crm : CrmEnv) (params : Json)
    (ctx : ConversationContext) : OpOut :=
  match params with
  | .obj kvs =>
    let cid := dictGet kvs "customer_id"
    if ¬cid.truthy then
      ⟨.ok { success := false,
             message := "I need a customer to create an order. Could you specify which customer?",
             missing_fields := ["customer_id"] }, ctx, []⟩
    else
      let prods := dictGet kvs "products"
      if ¬prods.truthy then
        ⟨.ok { success := false,
               message := "I need at least one product to create an order. Which products would you like to include?",
               missing_fields := ["products"] }, ctx, []⟩
      else
        match pyIter prods with
        | .error e => ⟨.error e, ctx, []⟩
        | .ok ps =>
          match mapE (fun p => pyGet p "product_id") ps with
          | .error e => ⟨.error e, ctx, []⟩
          | .ok product_ids =>
            match mapE (fun p =>
                match pyGet p "product_id", pyGetD p "quantity" (Json.int 1) with
                | .ok k, .ok v => .ok (k, v)
                | .error e, _ => .error e
                | _, .error e => .error e) ps with
            | .error e => ⟨.error e, ctx, []⟩
            | .ok pairs =>
              let quantity := pairs.foldl (fun acc kv => assocSetJ acc kv.1 kv.2) []
              let order : OrderData := ⟨cid, product_ids, quantity, dictGet kvs "notes"⟩
              let result := crm.create_order
              let calls := [CrmCall.createOrder order]
              if result.success then
                match pyGet result.data "order_id" with
                | .error e => ⟨.error e, ctx, calls⟩
                | .ok oid =>
                  ⟨.ok { success := true,
                         message := "Successfully created order for customer " ++ pyStr cid,
                         order_id := some oid, order_details := some result.data },
                   ctx, calls⟩
              else
                ⟨.ok { success := false,
                       message := "Failed to create order: " ++ result.message,
                       error_details := some result.error_details }, ctx, calls⟩
  | _ => ⟨.error ⟨"AttributeError", "object has no attribute get"⟩, ctx, []⟩

/-! ### The NLU service seen by the dispatcher

`self.ai_service` is either the configured primary provider — whose network
outcomes are environment inputs — or the deterministic `MockAIService`
installed by the fallback controller.  A primary service carries one outcome
per potential `generate_response` call site of a single dispatch:
`genMain` for the conversational branches and `genErr` for the exception
handler's rephrasing attempt. -/

structure PrimarySvc where
  hasGenerate : Bool
  genMain : Except PyErr String
  genErr : Except PyErr String

inductive SvcModel where
  | primary (p : PrimarySvc)
  | mock

/-- `hasattr(self.ai_service, 'generate_response')` (`MockAIService` has it). -/
def svcHasGenerate : SvcModel → Bool
  | .primary p => p.hasGenerate
  | .mock => true

/-- One `generate_response` call at a conversational branch. -/
def svcGenerateMain (svc : SvcModel) (prompt : String) : Except PyErr String :=
  match svc with
  | .primary p => p.genMain
  | .mock => .ok (mock_generate_response prompt)

/-- One `generate_response` call inside the exception handler. -/
def svcGenerateErr (svc : SvcModel) (prompt : String) : Except PyErr String :=
  match svc with
  | .primary p => p.genErr
  | .mock => .ok (mock_generate_response prompt)

/-! ### `AiAgent._execute_intent` (src/core/agent.py 195-359) -/

/-- The canned friendly-error table (lines 333-338), matched by substring
against `str(e)` in insertion order. -/
def friendly_error_message (emsg : String) : Option String :=
  if strContains emsg "Odoo RPC error" then
    some "抱歉，我现在无法连接到CRM系统来创建客户。这可能是系统暂时繁忙或网络连接问题。请您稍后再试，或者联系系统管理员检查CRM系统的状态。"
  else if strContains emsg "ValidationError" then
    some "抱歉，您提供的信息有些问题无法创建客户。请检查一下客户信息是否完整和正确。"
  else if strContains emsg "ConnectionError" then
    some "抱歉，现在无法连接到CRM系统。请稍后再试或联系技术支持。"
  else if strContains emsg "TimeoutError" then
    some "抱歉，系统响应超时了。请稍后再试，如果问题持续存在请联系技术支持。"
  else none

/-- The generic templated failure message (line 356), embedding `str(e)`. -/
def generic_error_message (emsg : String) : String :=
  "抱歉，在处理您的请求时遇到了问题：" ++ emsg ++ "。请稍后再试或联系技术支持。"

/-- The canned/templated part of the handler (lines 332-359). -/
def canned_error_envelope (e : PyErr) : Envelope :=
  match friendly_error_message e.msg with
  | some m =>
      { success := false, message := m, error_type := some e.ty,
        is_friendly_error := true }
  | none =>
      { success := false, message := generic_error_message e.msg,
        error_type := some e.ty, is_friendly_error := true }

/-- The `_execute_intent` exception handler (lines 312-359).  `intentInfo`
carries `str(intent.action)`/`str(intent.entity_type)` for the AI prompt;
`none` marks a malformed non-dict intent whose attribute access raises again
inside the handler's own `try`, which downgrades to the canned path. -/
def exec_error_envelope (svc : SvcModel) (intentInfo : Option (Json × Json))
    (e : PyErr) : Envelope :=
  match intentInfo with
  | none => canned_error_envelope e
  | some (a, t) =>
      if svcHasGenerate svc then
        let prompt := "系统在执行" ++ pyStr a ++ " " ++ pyStr t ++
          "操作时遇到了技术问题：" ++ e.msg ++
          "。请生成一个友好、专业的中文回复，向用户解释这个问题并提供解决方案建议。不要使用技术术语，要让用户感到被理解和帮助。"
        match svcGenerateErr svc prompt with
        | .ok t' =>
            { success := false, message := t', error_type := some e.ty,
              is_friendly_error := true }
        | .error _ => canned_error_envelope e
      else canned_error_envelope e

/-- Normalize the dispatcher's dynamic argument (lines 207-221): `None`
becomes the unknown intent, a dict is converted field-wise, and any other
value raises `AttributeError` at its first attribute access. -/
def coerce_intent_arg : Json ⊕ Intent → Except PyErr Intent
  | .inr i => .ok i
  | .inl .null => .ok unknown_intent
  | .inl (.obj kvs) =>
      .ok ⟨dictGetD kvs "action" (.str "unknown"),
           dictGetD kvs "entity_type" (.str "unknown"),
           dictGetD kvs "parameters" (.obj []),
           dictGetD kvs "confidence" (.num ⟨0, 0⟩)⟩
  | .inl _ => .error ⟨"AttributeError", "object has no attribute action"⟩

/-- The AI prompt of the unmatched-intent clarification branch (line 296). -/
def clarify_prompt (intent : Intent) : String :=
  "用户说了我不太理解的话，识别到的意图是" ++ pyStr intent.action ++
    " " ++ pyStr intent.entity_type ++ "，请生成一个友好的澄清回应，询问用户具体需要什么帮助"

/-- A conversational branch (greeting / introduction / help): AI-generated
reply when the service supports it, else the fixed string. -/
def conversational_out (svc : SvcModel) (prompt fixed : String)
    (mark : Envelope → Envelope) (ctx : ConversationContext) : OpOut :=
  if svcHasGenerate svc then
    match svcGenerateMain svc prompt with
    | .ok t => ⟨.ok (mark { success := true, message := t }), ctx, []⟩
    | .error e => ⟨.error e, ctx, []⟩
  else ⟨.ok (mark { success := true, message := fixed }), ctx, []⟩

/-- The dispatch body of `_execute_intent` (lines 222-310), before the
exception handler. -/
def execute_intent_body (svc : SvcModel) (crm : CrmEnv) (intent : Intent)
    (ctx : ConversationContext) : OpOut :=
  if intent.action.eqStr "greeting" then
    conversational_out svc "用户向我问好，请生成一个友好、自然的问候回应，并简单介绍我的功能"
      "你好！我是您的AI CRM助手 👋 很高兴为您服务！我可以帮您管理客户信息、处理订单、搜索产品等。有什么需要帮助的吗？"
      (fun env => { env with is_greeting := true }) ctx
  else if intent.action.eqStr "introduction" then
    conversational_out svc "用户问我是谁，请生成一个专业但友好的自我介绍，说明我的CRM助手功能"
      "我是您的智能CRM助手 🤖 专门帮助您高效管理客户关系。我能创建客户档案、搜索信息、处理订单等。让我来简化您的工作吧！"
      (fun env => { env with is_introduction := true }) ctx
  else if intent.action.eqStr "help" then
    conversational_out svc "用户请求帮助，请生成一个详细的功能菜单，说明我能做什么"
      "我很乐意帮助您！以下是我能为您做的事情：\n\n📝 **客户管理**\n• 创建新客户档案\n• 搜索客户信息\n• 更新客户资料\n\n📦 **订单处理**\n• 创建新订单\n• 查询订单状态\n• 订单管理\n\n🔍 **产品查询**\n• 搜索产品信息\n• 查看产品详情\n\n请告诉我您想做什么，我会立即为您处理！"
      (fun env => { env with is_help := true }) ctx
  else if intent.action.eqStr "create" ∧ intent.entity_type.eqStr "customer" then
    create_customer_op crm intent.parameters ctx
  else if intent.action.eqStr "update" ∧ intent.entity_type.eqStr "customer" then
    update_customer_op crm intent.parameters ctx
  else if intent.action.eqStr "search" ∧ intent.entity_type.eqStr "customer" then
    search_customers_op crm intent.parameters ctx
  else if intent.action.eqStr "create" ∧ intent.entity_type.eqStr "order" then
    create_order_op crm intent.parameters ctx
  else if intent.action.eqStr "search" ∧ intent.entity_type.eqStr "product" then
    search_products_op crm intent.parameters ctx
  else
    if svcHasGenerate svc then
      match svcGenerateMain svc (clarify_prompt intent) with
      | .ok t =>
          ⟨.ok { success := true, message := t, clarification_needed := true,
                 suggested_intent := some intent }, ctx, []⟩
      | .error e => ⟨.error e, ctx, []⟩
    else
      ⟨.ok { success := false,
             message := "I'm not sure what you want to do. Did you mean to " ++
               pyStr intent.action ++ " a " ++ pyStr intent.entity_type ++ "?",
             clarification_needed := true, suggested_intent := some intent }, ctx, []⟩

/-- `AiAgent._execute_intent`: the dispatch body wrapped in the exception
handler; never raises. -/
def execute_intent (svc : SvcModel) (crm : CrmEnv) (arg : Json ⊕ Intent)
    (ctx : ConversationContext) : Envelope × ConversationContext × List CrmCall :=
  match coerce_intent_arg arg with
  | .error e => (exec_error_envelope svc none e, ctx, [])
  | .ok intent =>
      let o := execute_intent_body svc crm intent ctx
      match o.result with
      | .ok env => (env, o.ctx, o.calls)
      | .error e =>
          (exec_error_envelope svc (some (intent.action, intent.entity_type)) e,
           o.ctx, o.calls)

/-! ### `AiAgent.process_request` (src/core/agent.py 113-170) -/

/-- `intent.confidence >= 0.7`: numbers (and bools, which are ints) compare;
anything else raises `TypeError`. -/
def pyGeF (x : Json) (c : JNum) : Except PyErr Bool :=
  match x with
  | .num q => .ok (c.le q)
  | .bool b => .ok (c.le (if b then ⟨1, 0⟩ else ⟨0, 0⟩))
  | _ => .error ⟨"TypeError", "not supported between instances of str and float"⟩

/-- The low-confidence clarification envelope (lines 151-157). -/
def clarification_envelope (intent : Intent) : Envelope :=
  { success := false,
    message := "I'm not sure what you want to do. Did you mean to " ++
      pyStr intent.action ++ " a " ++ pyStr intent.entity_type ++ "?",
    clarification_needed := true,
    suggested_intent := some intent }

/-- `AiAgent._update_context` (lines 618-633): unconditional history append;
`last_entity_mentioned` updated only at confidence ≥ 0.7 (`ge` is the gate
result already computed for this turn). -/
def update_context (ctx : ConversationContext) (user_input : String)
    (intent : Intent) (result : Envelope) (ge : Bool) : ConversationContext :=
  { ctx with
    history := ctx.history ++ [⟨user_input, result.message⟩],
    last_entity_mentioned :=
      if ge then intent.entity_type else ctx.last_entity_mentioned }

/-- The environment of one `AiAgent.process_request` turn: the primary
provider's raw completion (or its exception) and the collaborator services. -/
structure AiAgentEnv where
  parse_outcome : Except PyErr String
  svc : SvcModel
  crm : CrmEnv

/-- The guarded body of `process_request` (lines 128-162): parse, gate on
confidence, dispatch, update context. -/
def process_request_body (env : AiAgentEnv) (ctx : ConversationContext)
    (text_input : String) :
    Except PyErr (Envelope × ConversationContext × List CrmCall) :=
  match env.parse_outcome with
  | .error e => .error e
  | .ok raw =>
    match parse_intent_response raw with
    | .error e => .error e
    | .ok intent =>
      match pyGeF intent.confidence ⟨7, 1⟩ with
      | .error e => .error e
      | .ok ge =>
          let step :=
            if ge then execute_intent env.svc env.crm (.inr intent) ctx
            else (clarification_envelope intent, ctx, [])
          .ok (step.1, update_context step.2.1 text_input intent step.1 ge, step.2.2)

/-- The outer-catch envelope of lines 164-170, embedding `str(e)`. -/
def outer_error_envelope (e : PyErr) : Envelope :=
  { success := false,
    message := "Sorry, I encountered an error: " ++ e.msg,
    error_type := some e.ty }

/-- `AiAgent.process_request`: the body wrapped in the top-level handler.
Returns the response envelope, the context after the turn, and every CRM
Port call the turn issued. -/
def process_request (env : AiAgentEnv) (ctx : ConversationContext)
    (text_input : String) : Envelope × ConversationContext × List CrmCall :=
  match process_request_body env ctx text_input with
  | .ok r => r
  | .error e => (outer_error_envelope e, ctx, [])

/-! ### Fallback controller (src/core/fallback_ai_agent.py) -/

/-- Which provider served a call, for the observable NLU trace. -/
inductive Provider where
  | primary
  | mock
deriving DecidableEq

/-- Observable events of one fallback-agent turn. -/
inductive Event where
  | parseCall (p : Provider) (ok : Bool)
  | generateCall (p : Provider) (ok : Bool)
  | initPrimary (ok : Bool)
  | crm (c : CrmCall)

/-- `FallbackState`: the controller's counters (one per agent instance).
Defaults: `consecutive_failures = 0`, `using_fallback = False`,
`max_failures = retry_after_failures` (default 3), `fallback_enabled =
enable_on_failure` (default True). -/
structure FallbackState where
  consecutive_failures : Nat
  using_fallback : Bool
  max_failures : Nat
  fallback_enabled : Bool

/-- `FallbackAiAgent._check_and_handle_failure` (lines 67-86): increment,
then switch to the mock fallback when the threshold is reached.  Returns the
new state and whether the switch happened. -/
def check_and_handle_failure (st : FallbackState) : FallbackState × Bool :=
  let st₁ := { st with consecutive_failures := st.consecutive_failures + 1 }
  if st₁.consecutive_failures ≥ st₁.max_failures ∧ st₁.fallback_enabled ∧
      ¬st₁.using_fallback then
    ({ st₁ with using_fallback := true }, true)
  else (st₁, false)

/-- `FallbackAiAgent._reset_failure_count` (lines 88-92). -/
def reset_failure_count (st : FallbackState) : FallbackState :=
  { st with consecutive_failures := 0 }

/-- The environment of one fallback-agent turn: the primary provider's
outcomes at each potential call site, the recovery-probe outcome, and the
CRM adapter. -/
structure FbEnv where
  primary_parse : Except PyErr String
  primary_gen_exec_main : Except PyErr String
  primary_gen_exec_err : Except PyErr String
  primary_gen_phrase : Except PyErr String
  init_primary_ok : Bool
  crm : CrmEnv

/-- The default-intent dict returned when the primary fails without reaching
the switch threshold (lines 133-140). -/
def fb_default_intent (prompt : String) (e : PyErr) : Json :=
  .obj [("action", .str "unknown"), ("entity_type", .str "unknown"),
        ("parameters", .obj []), ("confidence", .num ⟨0, 0⟩),
        ("raw_input", .str prompt), ("error", .str e.msg)]

/-- `FallbackAiAgent._parse_intent_with_fallback` (lines 94-140).  Returns
the intent value, the new controller state, the NLU/probe events in order,
and whether a recovery probe ran (`super().__init__` resets the agent's
session map even when its own service construction then fails, so a probe
always wipes stored contexts). -/
def parse_intent_with_fallback (env : FbEnv) (st : FallbackState)
    (prompt : String) : Json × FallbackState × List Event × Bool :=
  if st.using_fallback then
    -- active service is the mock, whose parse_intent never raises
    let raw := mock_parse_intent prompt
    let st₁ := reset_failure_count st
    -- recovery probe: using_fallback ∧ consecutive_failures == 0
    let st₂ := if env.init_primary_ok then { st₁ with using_fallback := false } else st₁
    (robust_parse_intent_result (.str raw) prompt, st₂,
     [.parseCall .mock true, .initPrimary env.init_primary_ok], true)
  else
    match env.primary_parse with
    | .ok raw =>
        -- success: reset; no probe since using_fallback is false
        (robust_parse_intent_result (.str raw) prompt, reset_failure_count st,
         [.parseCall .primary true], false)
    | .error e =>
        let step := check_and_handle_failure st
        if step.2 then
          -- switched: retry against the freshly installed mock service
          let raw := mock_parse_intent prompt
          (robust_parse_intent_result (.str raw) prompt, reset_failure_count step.1,
           [.parseCall .primary false, .parseCall .mock true], false)
        else
          (fb_default_intent prompt e, step.1, [.parseCall .primary false], false)

/-- The response envelope of `FallbackAiAgent.process_request`
(lines 300-307). -/
structure FbEnvelope where
  session_id : String
  message : String
  intent : Json
  result : Envelope
  using_fallback : Bool
  consecutive_failures : Nat

/-- Cap history at the last `max_rounds` turns
(`FallbackAiAgent.update_context`, lines 244-257; `conversation_max_rounds`
defaults to 5 from the base constructor). -/
def fb_cap_history (h : List Turn) : List Turn :=
  if h.length > 5 then h.drop (h.length - 5) else h

/-- `FallbackAiAgent.process_request` (lines 259-317).  Takes the stored
context for this session id (if any) and returns the envelope, the new
controller state, the stored context after the turn, and the full event
trace.  The outer handler of lines 309-317 is unreachable here: every step
of the body returns a value for every environment outcome. -/
def fb_process_request (env : FbEnv) (st : FallbackState)
    (stored : Option ConversationContext) (user_input session_id user_id : String) :
    FbEnvelope × FallbackState × ConversationContext × List Event :=
  let p1 := parse_intent_with_fallback env st user_input
  let intent_result := p1.1
  let st₁ := p1.2.1
  let ev₁ := p1.2.2.1
  let wiped := p1.2.2.2
  -- get_or_create_context (after a probe the base constructor emptied the map)
  let ctx :=
    match (if wiped then none else stored) with
    | some c => c
    | none => { session_id := session_id, user_id := user_id }
  let activeSvc : SvcModel :=
    if st₁.using_fallback then .mock
    else .primary ⟨true, env.primary_gen_exec_main, env.primary_gen_exec_err⟩
  let ex := execute_intent activeSvc env.crm (.inl intent_result) ctx
  let execution_result := ex.1
  let ctx₁ := ex.2.1
  let ev₂ := ex.2.2.map Event.crm
  -- response phrasing, also guarded by the failure counter
  let phrasePrompt := "用户输入: " ++ user_input ++ "\n操作结果: " ++ execution_result.message
  let phrase : String × FallbackState × List Event :=
    if st₁.using_fallback then
      (mock_generate_response phrasePrompt, st₁, [.generateCall .mock true])
    else
      match env.primary_gen_phrase with
      | .ok t => (t, st₁, [.generateCall .primary true])
      | .error _ =>
          let step := check_and_handle_failure st₁
          if step.2 then
            (mock_generate_response phrasePrompt, step.1,
             [.generateCall .primary false, .generateCall .mock true])
          else
            (execution_result.message, step.1, [.generateCall .primary false])
  let st₂ := phrase.2.1
  let ctx₂ := { ctx₁ with
    history := fb_cap_history (ctx₁.history ++ [⟨user_input, execution_result.message⟩]) }
  (⟨session_id, phrase.1, intent_result, execution_result,
    st₂.using_fallback, st₂.consecutive_failures⟩,
   st₂, ctx₂, ev₁ ++ ev₂ ++ phrase.2.2)

/-- Lookup on a dynamic value known to be a dict (`None` otherwise); used to
state what `_create_order` builds. -/
def objGet (p : Json) (k : String) : Json :=
  match p with
  | .obj kvs => dictGet kvs k
  | _ => .null

/-- Lookup with default on a dynamic value known to be a dict. -/
def objGetD (p : Json) (k : String) (d : Json) : Json :=
  match p with
  | .obj kvs => dictGetD kvs k d
  | _ => d

/-- The CRM calls contained in an event trace. -/
def crmCallsOf (evs : List Event) : List CrmCall :=
  evs.foldr (fun e acc => match e with | .crm c => c :: acc | _ => acc) []

/-- The recovery-probe attempts contained in an event trace. -/
def initAttemptsOf (evs : List Event) : Nat :=
  evs.foldl (fun n e => match e with | .initPrimary _ => n + 1 | _ => n) 0

/-! ### Concrete fixtures used by witnesses and counterexamples -/

/-- A benign CRM environment where every operation succeeds. -/
def demoCrm : CrmEnv :=
  { create_customer :=
      { success := true, message := "created",
        data := .obj [("customer_id", Json.int 7)] },
    search_customers := { success := true, message := "ok", data := .arr [] },
    get_customer := fun _ => { success := false, message := "not found" },
    update_customer := { success := true, message := "updated" },
    search_products := .list [],
    create_order :=
      { success := true, message := "ok",
        data := .obj [("order_id", Json.int 1)] } }

def demoCtx : ConversationContext := { session_id := "s", user_id := "u" }

/-- The fallback-agent environment of the C1 counterexample: the primary
provider answers a well-formed intent whose confidence is 0.6. -/
def envC1 : FbEnv :=
  { primary_parse := .ok "\x7b\"action\": \"create\", \"entity_type\": \"customer\", \"parameters\": \x7b\"name\": \"Bob\"\x7d, \"confidence\": 0.6\x7d",
    primary_gen_exec_main := .ok "m",
    primary_gen_exec_err := .ok "e",
    primary_gen_phrase := .ok "done",
    init_primary_ok := false,
    crm := demoCrm }

/-- The fallback-agent environment of the C3 counterexample: the primary
provider's parse fails once, but its `generate_response` calls succeed. -/
def envC3 : FbEnv :=
  { primary_parse := .error ⟨"ConnectionError", "nlu down"⟩,
    primary_gen_exec_main := .ok "clar",
    primary_gen_exec_err := .ok "e",
    primary_gen_phrase := .ok "phrased",
    init_primary_ok := false,
    crm := demoCrm }

/-- The CRM environment of the C5 witness: searching finds exactly customer
42 "Alice", whose detail fetch succeeds. -/
def aliceCrm : CrmEnv :=
  { demoCrm with
      search_customers :=
        { success := true, message := "ok",
          data := .arr [.obj [("id", Json.int 42), ("name", .str "Alice")]] },
      get_customer := fun _ =>
        { success := true, message := "ok",
          data := .obj [("customer",
            .obj [("id", Json.int 42), ("name", .str "Alice"),
                  ("email", .str "alice@example.com")])] } }

/-- Fixtures for the C8 witness: a bare-list adapter and a wrapped-result
adapter. -/
def listProductsCrm : CrmEnv :=
  { demoCrm with search_products := .list [.obj [("id", Json.int 5)]] }

def wrappedProductsRes : OperationResult :=
  { success := true, message := "ok",
    data := .obj [("products", .arr [.obj [("id", Json.int 5)]])] }

def wrappedProductsCrm : CrmEnv :=
  { demoCrm with search_products := .res wrappedProductsRes }

/-! ### Theorems settling the claims -/

theorem JNum.le_iff_toRat (a b : JNum) : a.le b = true ↔ a.toRat ≤ b.toRat := by
  have h10 : (0 : ℚ) < 10 ^ a.exp10 := by positivity
  have h10' : (0 : ℚ) < 10 ^ b.exp10 := by positivity
  rw [JNum.le, decide_eq_true_eq, JNum.toRat, JNum.toRat,
    div_le_div_iff₀ h10 h10']
  constructor
  · intro h
    exact_mod_cast h
  · intro h
    exact_mod_cast h


/-- C2, counterexample: the claim says the intent parser returns a
well-formed Intent without raising for every input string, but the input
`"42"` — a valid JSON document whose top level is not an object — makes
`_parse_intent_response` raise an uncaught `AttributeError` at
`response_data.get('action', ...)`: only `json.JSONDecodeError`/`KeyError`
are caught. -/
theorem C2_counterexample :
    parse_intent_response "42" =
      .error ⟨"AttributeError", "object has no attribute get"⟩ := rfl

/-- C2, amended: for every input string, if the cleaned text fails to decode
as JSON the parser returns exactly the zero-confidence unknown intent; if it
decodes to a JSON object the parser returns a well-formed intent with the
documented per-field defaults; and if it decodes to a non-object document the
parser raises `AttributeError`. -/
theorem C2_decode_robustness (s : String) :
    (pyJsonLoads (clean_response s) = none →
        parse_intent_response s = .ok unknown_intent)
    ∧ (∀ kvs, pyJsonLoads (clean_response s) = some (.obj kvs) →
        parse_intent_response s =
          .ok ⟨dictGetD kvs "action" (.str "unknown"),
               dictGetD kvs "entity_type" (.str "unknown"),
               dictGetD kvs "parameters" (.obj []),
               dictGetD kvs "confidence" (.num ⟨0, 0⟩)⟩)
    ∧ (∀ v, pyJsonLoads (clean_response s) = some v → (∀ kvs, v ≠ .obj kvs) →
        parse_intent_response s =
          .error ⟨"AttributeError", "object has no attribute get"⟩) := by
  refine ⟨fun h => ?_, fun kvs h => ?_, fun v h hv => ?_⟩
  · rw [parse_intent_response, h]
  · rw [parse_intent_response, h]
  · rw [parse_intent_response, h]
    cases v with
    | obj kvs => exact absurd rfl (hv kvs)
    | null => rfl
    | bool b => rfl
    | num q => rfl
    | str t => rfl
    | arr xs => rfl

/-- C2, witness for the amended theorem at the spec's own sample inputs:
the empty string, `"not json"`, and the truncated document all return exactly
the unknown intent, and the fenced sample returns the decoded intent. -/
theorem C2_decode_robustness_witness :
    parse_intent_response "" = .ok unknown_intent ∧
    parse_intent_response "not json" = .ok unknown_intent ∧
    parse_intent_response "\x7b\"action\": \"cre" = .ok unknown_intent := by
  refine ⟨(C2_decode_robustness "").1 (by rfl),
    (C2_decode_robustness "not json").1 (by rfl),
    (C2_decode_robustness "\x7b\"action\": \"cre").1 (by rfl)⟩

/-- C9, counterexample: the claim says no failure message ever contains raw
provider error text, but the top-level handler of `process_request` answers
`"Sorry, I encountered an error: " + str(e)`, embedding the raw exception
text verbatim. -/
theorem C9_counterexample :
    (process_request
      { parse_outcome := .error ⟨"ConnectionError", "upstream provider unreachable"⟩,
        svc := .mock, crm := demoCrm } demoCtx "hi").1.message =
      "Sorry, I encountered an error: upstream provider unreachable" ∧
    strContains
      (process_request
        { parse_outcome := .error ⟨"ConnectionError", "upstream provider unreachable"⟩,
          svc := .mock, crm := demoCrm } demoCtx "hi").1.message
      "upstream provider unreachable" = true := ⟨rfl, rfl⟩

/-- C9, amended: no invocation of `process_request` propagates an exception —
every exception the guarded body raises is converted into a failure envelope
with a non-empty message and the exception's class name — but that message
embeds the raw exception text after a fixed English prefix rather than hiding
it. -/
theorem C9_exception_containment (env : AiAgentEnv) (ctx : ConversationContext)
    (text : String) (e : PyErr)
    (h : process_request_body env ctx text = .error e) :
    process_request env ctx text = (outer_error_envelope e, ctx, []) ∧
    (process_request env ctx text).1.success = false ∧
    (process_request env ctx text).1.message =
      "Sorry, I encountered an error: " ++ e.msg ∧
    (process_request env ctx text).1.message ≠ "" ∧
    (process_request env ctx text).1.error_type = some e.ty := by
  have hp : process_request env ctx text = (outer_error_envelope e, ctx, []) := by
    rw [process_request, h]
  refine ⟨hp, by rw [hp]; rfl, by rw [hp]; rfl, ?_, by rw [hp]; rfl⟩
  rw [hp]
  show "Sorry, I encountered an error: " ++ e.msg ≠ ""
  intro hcontra
  have hc := congrArg String.length hcontra
  rw [String.length_append] at hc
  have hlen : ("Sorry, I encountered an error: " : String).length = 31 := rfl
  have hzero : ("" : String).length = 0 := rfl
  rw [hlen, hzero] at hc
  omega

/-- C9, witness: a parse-time `TimeoutError` is caught and converted. -/
theorem C9_exception_containment_witness :
    (process_request
      { parse_outcome := .error ⟨"TimeoutError", "read timed out"⟩,
        svc := .mock, crm := demoCrm } demoCtx "hello").1.message =
      "Sorry, I encountered an error: read timed out" :=
  (C9_exception_containment
    { parse_outcome := .error ⟨"TimeoutError", "read timed out"⟩,
      svc := .mock, crm := demoCrm } demoCtx "hello"
    ⟨"TimeoutError", "read timed out"⟩ rfl).2.2.1

/-- C1, counterexample: `FallbackAiAgent.process_request` applies no
confidence gate — it hands the parsed intent straight to `_execute_intent`.
With an intent of confidence 0.6 (< 0.7) it issues one `createCustomer` CRM
call and returns a success envelope, not a clarification. -/
theorem C1_counterexample :
    (fb_process_request envC1 ⟨0, false, 3, true⟩ none "hi" "s" "u").1.intent =
      .obj [("action", .str "create"), ("entity_type", .str "customer"),
            ("parameters", .obj [("name", .str "Bob")]),
            ("confidence", .num ⟨6, 1⟩)] ∧
    (JNum.toRat ⟨6, 1⟩ < 7 / 10) ∧
    crmCallsOf (fb_process_request envC1 ⟨0, false, 3, true⟩ none "hi" "s" "u").2.2.2 =
      [.createCustomer ⟨.str "Bob", .null, .null, .null, .null, .null⟩] ∧
    (fb_process_request envC1 ⟨0, false, 3, true⟩ none "hi" "s" "u").1.result.success = true ∧
    (fb_process_request envC1 ⟨0, false, 3, true⟩ none "hi" "s" "u").1.result.clarification_needed = false := by
  refine ⟨rfl, ?_, rfl, rfl, rfl⟩
  rw [JNum.toRat]
  norm_num

/-- C1, amended: for the base `AiAgent.process_request`, every parsed intent
whose confidence is a number strictly below 0.7 yields zero CRM Port calls
and the clarification envelope carrying that intent; the subclassed
`FallbackAiAgent.process_request` does not gate on confidence and executes
such intents. -/
theorem C1_confidence_gating (env : AiAgentEnv) (ctx : ConversationContext)
    (text raw : String) (intent : Intent) (q : JNum)
    (hraw : env.parse_outcome = .ok raw)
    (hparse : parse_intent_response raw = .ok intent)
    (hconf : intent.confidence = .num q)
    (hlt : q.toRat < 7 / 10) :
    (process_request env ctx text).2.2 = [] ∧
    (process_request env ctx text).1 = clarification_envelope intent ∧
    (process_request env ctx text).1.clarification_needed = true ∧
    (process_request env ctx text).1.suggested_intent = some intent := by
  have hle : JNum.le ⟨7, 1⟩ q = false := by
    by_contra hcon
    have htrue : JNum.le ⟨7, 1⟩ q = true := by
      cases h : JNum.le ⟨7, 1⟩ q
      · exact absurd h hcon
      · rfl
    have h710 : (JNum.toRat ⟨7, 1⟩) = 7 / 10 := by rw [JNum.toRat]; norm_num
    have := (JNum.le_iff_toRat ⟨7, 1⟩ q).mp htrue
    rw [h710] at this
    exact absurd this (not_le.mpr hlt)
  have hbody : process_request_body env ctx text =
      .ok (clarification_envelope intent,
        update_context ctx text intent (clarification_envelope intent) false, []) := by
    simp only [process_request_body, hraw, hparse, hconf, pyGeF, hle]
    rfl
  have hp : process_request env ctx text =
      (clarification_envelope intent,
        update_context ctx text intent (clarification_envelope intent) false, []) := by
    rw [process_request, hbody]
  exact ⟨by rw [hp], by rw [hp], by rw [hp]; rfl, by rw [hp]; rfl⟩

/-- C1, witness: a concrete 0.3-confidence parse through the base agent
issues no CRM call and returns the clarification envelope. -/
theorem C1_confidence_gating_witness :
    (process_request
      { parse_outcome := .ok "\x7b\"action\": \"create\", \"entity_type\": \"customer\", \"parameters\": \x7b\x7d, \"confidence\": 0.3\x7d",
        svc := .mock, crm := demoCrm } demoCtx "make a customer").2.2 = [] ∧
    (process_request
      { parse_outcome := .ok "\x7b\"action\": \"create\", \"entity_type\": \"customer\", \"parameters\": \x7b\x7d, \"confidence\": 0.3\x7d",
        svc := .mock, crm := demoCrm } demoCtx "make a customer").1.suggested_intent =
      some ⟨.str "create", .str "customer", .obj [], .num ⟨3, 1⟩⟩ := by
  have h := C1_confidence_gating
    { parse_outcome := .ok "\x7b\"action\": \"create\", \"entity_type\": \"customer\", \"parameters\": \x7b\x7d, \"confidence\": 0.3\x7d",
      svc := .mock, crm := demoCrm } demoCtx "make a customer"
    "\x7b\"action\": \"create\", \"entity_type\": \"customer\", \"parameters\": \x7b\x7d, \"confidence\": 0.3\x7d"
    ⟨.str "create", .str "customer", .obj [], .num ⟨3, 1⟩⟩ ⟨3, 1⟩
    rfl rfl rfl (by rw [JNum.toRat]; norm_num)
  exact ⟨h.1, h.2.2.2⟩

/-- C10: when the executed intent's (action, entityType) pair matches no
dispatch rule (and no conversational action), the executor issues no CRM
call and returns a clarification envelope carrying the intent; the
envelope's success flag equals whether the NLU service provides a
`generate_response` method (true with it — using its reply as the message —
false without it). -/
theorem C10_unmatched_intent_clarification (svc : SvcModel) (crm : CrmEnv)
    (intent : Intent) (ctx : ConversationContext)
    (h1 : intent.action.eqStr "greeting" = false)
    (h2 : intent.action.eqStr "introduction" = false)
    (h3 : intent.action.eqStr "help" = false)
    (h4 : ¬(intent.action.eqStr "create" = true ∧ intent.entity_type.eqStr "customer" = true))
    (h5 : ¬(intent.action.eqStr "update" = true ∧ intent.entity_type.eqStr "customer" = true))
    (h6 : ¬(intent.action.eqStr "search" = true ∧ intent.entity_type.eqStr "customer" = true))
    (h7 : ¬(intent.action.eqStr "create" = true ∧ intent.entity_type.eqStr "order" = true))
    (h8 : ¬(intent.action.eqStr "search" = true ∧ intent.entity_type.eqStr "product" = true))
    (hgen : svcHasGenerate svc = true →
      ∃ t, svcGenerateMain svc (clarify_prompt intent) = .ok t) :
    (execute_intent svc crm (.inr intent) ctx).2.2 = [] ∧
    (execute_intent svc crm (.inr intent) ctx).1.clarification_needed = true ∧
    (execute_intent svc crm (.inr intent) ctx).1.suggested_intent = some intent ∧
    (execute_intent svc crm (.inr intent) ctx).1.success = svcHasGenerate svc := by
  have hcoerce : coerce_intent_arg (.inr intent) = .ok intent := rfl
  cases hhg : svcHasGenerate svc with
  | false =>
      have hbody : execute_intent_body svc crm intent ctx =
          ⟨.ok { success := false,
                 message := "I'm not sure what you want to do. Did you mean to " ++
                   pyStr intent.action ++ " a " ++ pyStr intent.entity_type ++ "?",
                 clarification_needed := true, suggested_intent := some intent },
           ctx, []⟩ := by
        rw [execute_intent_body, if_neg (by simp [h1]), if_neg (by simp [h2]),
          if_neg (by simp [h3]), if_neg h4, if_neg h5, if_neg h6, if_neg h7,
          if_neg h8, if_neg (by simp [hhg])]
      have hx : execute_intent svc crm (.inr intent) ctx =
          ({ success := false,
             message := "I'm not sure what you want to do. Did you mean to " ++
               pyStr intent.action ++ " a " ++ pyStr intent.entity_type ++ "?",
             clarification_needed := true, suggested_intent := some intent },
           ctx, []) := by
        rw [execute_intent, hcoerce]
        simp only [hbody]
      exact ⟨by rw [hx], by rw [hx], by rw [hx], by rw [hx]⟩
  | true =>
      obtain ⟨t, ht⟩ := hgen hhg
      have hbody : execute_intent_body svc crm intent ctx =
          ⟨.ok { success := true, message := t,
                 clarification_needed := true, suggested_intent := some intent },
           ctx, []⟩ := by
        rw [execute_intent_body, if_neg (by simp [h1]), if_neg (by simp [h2]),
          if_neg (by simp [h3]), if_neg h4, if_neg h5, if_neg h6, if_neg h7,
          if_neg h8, if_pos (by simp [hhg]), ht]
      have hx : execute_intent svc crm (.inr intent) ctx =
          ({ success := true, message := t,
             clarification_needed := true, suggested_intent := some intent },
           ctx, []) := by
        rw [execute_intent, hcoerce]
        simp only [hbody]
      exact ⟨by rw [hx], by rw [hx], by rw [hx], by rw [hx]⟩

/-- C10, witness: a `delete customer` intent (no dispatch rule) through the
mock service — which has `generate_response` — gives a success-true
clarification with no CRM call; through a primary service lacking
`generate_response`, a success-false clarification. -/
theorem C10_unmatched_intent_clarification_witness :
    ((execute_intent .mock demoCrm
        (.inr ⟨.str "delete", .str "customer", .obj [], .num ⟨9, 1⟩⟩) demoCtx).2.2 = [] ∧
     (execute_intent .mock demoCrm
        (.inr ⟨.str "delete", .str "customer", .obj [], .num ⟨9, 1⟩⟩) demoCtx).1.success = true) ∧
    (execute_intent (.primary ⟨false, .ok "x", .ok "y"⟩) demoCrm
        (.inr ⟨.str "delete", .str "customer", .obj [], .num ⟨9, 1⟩⟩) demoCtx).1.success = false := by
  have hm := C10_unmatched_intent_clarification .mock demoCrm
    ⟨.str "delete", .str "customer", .obj [], .num ⟨9, 1⟩⟩ demoCtx
    rfl rfl rfl (by simp [Json.eqStr]) (by simp [Json.eqStr]) (by simp [Json.eqStr])
    (by simp [Json.eqStr]) (by simp [Json.eqStr])
    (fun _ => ⟨_, rfl⟩)
  have hp := C10_unmatched_intent_clarification (.primary ⟨false, .ok "x", .ok "y"⟩) demoCrm
    ⟨.str "delete", .str "customer", .obj [], .num ⟨9, 1⟩⟩ demoCtx
    rfl rfl rfl (by simp [Json.eqStr]) (by simp [Json.eqStr]) (by simp [Json.eqStr])
    (by simp [Json.eqStr]) (by simp [Json.eqStr])
    (fun h => by exact absurd h (by simp [svcHasGenerate]))
  exact ⟨⟨hm.1, hm.2.2.2⟩, hp.2.2.2⟩

/-- C3, counterexample: the claim says every successful NLU call resets
`consecutiveFailures` to 0, but a turn whose parse fails once (counter 1)
and whose response-phrasing `generate_response` call then succeeds ends with
the counter still at 1: only `parse_intent` successes reset it. -/
theorem C3_counterexample :
    (fb_process_request envC3 ⟨0, false, 3, true⟩ none "ok" "s" "u").2.1.consecutive_failures
      = 1 ∧
    (fb_process_request envC3 ⟨0, false, 3, true⟩ none "ok" "s" "u").2.2.2 =
      [.parseCall .primary false, .generateCall .primary true] := ⟨rfl, rfl⟩

/-- C3, amended: every failed NLU call guarded by the failure handler
increments `consecutiveFailures` by one; every successful `parseIntent` call
resets it to 0 (successful `generateResponse` calls do not); starting from a
fresh controller with the default `maxFailures = 3` and fallback enabled,
exactly three consecutive parse failures make `usingFallback` true, and
every subsequent `parseIntent` call is served by the fallback mock provider
without attempting the primary provider's parse. -/
theorem C3_fallback_activation (env env' : FbEnv) (st' : FallbackState)
    (prompt prompt' raw : String) (e : PyErr) :
    (∀ st : FallbackState,
      (check_and_handle_failure st).1.consecutive_failures =
        st.consecutive_failures + 1) ∧
    (∀ st : FallbackState, st.using_fallback = false →
      env.primary_parse = .ok raw →
      (parse_intent_with_fallback env st prompt).2.1.consecutive_failures = 0) ∧
    (env.primary_parse = .error e →
      (parse_intent_with_fallback env ⟨0, false, 3, true⟩ prompt).2.1 =
        ⟨1, false, 3, true⟩ ∧
      (parse_intent_with_fallback env ⟨1, false, 3, true⟩ prompt).2.1 =
        ⟨2, false, 3, true⟩ ∧
      (parse_intent_with_fallback env ⟨2, false, 3, true⟩ prompt).2.1 =
        ⟨0, true, 3, true⟩) ∧
    (st'.using_fallback = true →
      (parse_intent_with_fallback env' st' prompt').2.2.1 =
        [.parseCall .mock true, .initPrimary env'.init_primary_ok]) := by
  refine ⟨fun st => ?_, fun st hu hok => ?_, fun herr => ?_, fun hu' => ?_⟩
  · rw [check_and_handle_failure]
    split <;> rfl
  · obtain ⟨cf, uf, mf, fe⟩ := st
    simp only at hu
    subst hu
    simp only [parse_intent_with_fallback, Bool.false_eq_true, if_false, hok,
      reset_failure_count]
  · refine ⟨?_, ?_, ?_⟩ <;>
      simp only [parse_intent_with_fallback, Bool.false_eq_true, if_false, herr,
        check_and_handle_failure, reset_failure_count] <;>
      norm_num
  · obtain ⟨cf, uf, mf, fe⟩ := st'
    simp only at hu'
    subst hu'
    simp only [parse_intent_with_fallback, if_true]

/-- C3, witness for the amended theorem: a concrete reset after a success,
the concrete three-failure activation run, and the concrete mock-served call
after activation. -/
theorem C3_fallback_activation_witness :
    (parse_intent_with_fallback
      { envC3 with primary_parse := .ok "\x7b\x7d" } ⟨2, false, 3, true⟩
      "hi").2.1.consecutive_failures = 0 ∧
    (parse_intent_with_fallback envC3 ⟨2, false, 3, true⟩ "hi").2.1 =
      ⟨0, true, 3, true⟩ ∧
    (parse_intent_with_fallback envC3 ⟨0, true, 3, true⟩ "hi").2.2.1 =
      [.parseCall .mock true, .initPrimary false] := by
  refine ⟨(C3_fallback_activation { envC3 with primary_parse := .ok "\x7b\x7d" }
      envC3 ⟨0, true, 3, true⟩ "hi" "hi" "\x7b\x7d" ⟨"ConnectionError", "nlu down"⟩).2.1
      ⟨2, false, 3, true⟩ rfl rfl, ?_, ?_⟩
  · exact ((C3_fallback_activation envC3 envC3 ⟨0, true, 3, true⟩ "hi" "hi" "r"
      ⟨"ConnectionError", "nlu down"⟩).2.2.1 rfl).2.2
  · exact (C3_fallback_activation envC3 envC3 ⟨0, true, 3, true⟩ "hi" "hi" "r"
      ⟨"ConnectionError", "nlu down"⟩).2.2.2 rfl

/-- C4: whenever a `parseIntent` call runs while `usingFallback` is true
(so its mock service call succeeds and the counter is reset to 0), the
controller makes exactly one primary re-initialization attempt; on success
`usingFallback` becomes false, on failure it stays true; and a call made
while `usingFallback` is false makes no re-initialization attempt at all. -/
theorem C4_fallback_recovery (env : FbEnv) (st : FallbackState) (prompt : String) :
    (st.using_fallback = true →
      initAttemptsOf (parse_intent_with_fallback env st prompt).2.2.1 = 1 ∧
      (parse_intent_with_fallback env st prompt).2.1.using_fallback =
        !env.init_primary_ok ∧
      (parse_intent_with_fallback env st prompt).2.1.consecutive_failures = 0) ∧
    (st.using_fallback = false →
      initAttemptsOf (parse_intent_with_fallback env st prompt).2.2.1 = 0) := by
  obtain ⟨cf, uf, mf, fe⟩ := st
  constructor
  · intro hu
    simp only at hu
    subst hu
    simp only [parse_intent_with_fallback, if_true]
    cases hp : env.init_primary_ok <;>
      simp [initAttemptsOf, reset_failure_count]
  · intro hu
    simp only at hu
    subst hu
    simp only [parse_intent_with_fallback, Bool.false_eq_true, if_false]
    cases hp : env.primary_parse with
    | ok raw => simp [initAttemptsOf]
    | error e =>
        cases hsw : (check_and_handle_failure ⟨cf, false, mf, fe⟩).2 <;>
          simp [hsw, initAttemptsOf]

/-- C4, witness: with a recovering primary the flag drops back to false; with
a still-broken primary it stays true — one probe either way, none when the
primary is active. -/
theorem C4_fallback_recovery_witness :
    (initAttemptsOf (parse_intent_with_fallback
        { envC3 with init_primary_ok := true } ⟨0, true, 3, true⟩ "hi").2.2.1 = 1 ∧
      (parse_intent_with_fallback
        { envC3 with init_primary_ok := true } ⟨0, true, 3, true⟩ "hi").2.1.using_fallback
        = false) ∧
    (parse_intent_with_fallback envC3 ⟨0, true, 3, true⟩ "hi").2.1.using_fallback
      = true ∧
    initAttemptsOf (parse_intent_with_fallback envC3 ⟨0, false, 3, true⟩ "hi").2.2.1
      = 0 := by
  have h1 := (C4_fallback_recovery { envC3 with init_primary_ok := true }
    ⟨0, true, 3, true⟩ "hi").1 rfl
  have h2 := (C4_fallback_recovery envC3 ⟨0, true, 3, true⟩ "hi").1 rfl
  have h3 := (C4_fallback_recovery envC3 ⟨0, false, 3, true⟩ "hi").2 rfl
  exact ⟨⟨h1.1, h1.2.1⟩, h2.2.1, h3⟩

/-- The multi-match summary never touches the context. -/
theorem multi_list_out_ctx (c : Json) (ctx : ConversationContext)
    (calls : List CrmCall) : (multi_list_out c ctx calls).ctx = ctx := by
  rw [multi_list_out]
  cases pyIter c with
  | error e => rfl
  | ok cs =>
      dsimp only
      cases mapE fmt_customer cs with
      | error e => rfl
      | ok lines => rfl

/-- C6: a customer search whose normalized result list does not contain
exactly one record — in particular any search returning two or more
matches — leaves the session context, including `activeEntityId` and
`activeEntityName`, unchanged. -/
theorem C6_active_entity_frame (crm : CrmEnv) (params0 : Json)
    (ctx : ConversationContext) (xs : List Json)
    (hdata : normalize_customers crm.search_customers.data = .arr xs)
    (hlen : xs.length ≠ 1) :
    (search_customers_op crm params0 ctx).ctx = ctx := by
  have hobj : ∀ kvs' : List (String × Json),
      (search_customers_op crm (.obj kvs') ctx).ctx = ctx := by
    intro kvs'
    rw [search_customers_op]
    simp only [hdata]
    cases hs : crm.search_customers.success with
    | false => simp [hs]
    | true =>
        cases xs with
        | nil => simp [hs, Json.truthy]
        | cons y ys =>
            have hne : ys.length ≠ 0 := by simpa using hlen
            have hne2 : ¬(ys.length + 1 = 1) := by omega
            simp [hs, Json.truthy, pyLen, hne, hne2, multi_list_out_ctx]
  cases params0 with
  | str s => exact hobj [("name", .str s)]
  | null => exact hobj []
  | obj kvs => exact hobj kvs
  | bool b => rfl
  | num q => rfl
  | arr ys => rfl

/-- C6, witness: a two-match search against a context that remembers
customer 42 leaves the memory intact. -/
theorem C6_active_entity_frame_witness :
    (search_customers_op
      { demoCrm with search_customers :=
          { success := true, message := "ok",
            data := .arr [.obj [("id", Json.int 1), ("name", .str "Alice")],
                          .obj [("id", Json.int 2), ("name", .str "Alice")]] } }
      (.obj [("name", .str "Alice")])
      { demoCtx with active_customer_id := .str "42",
                     active_customer_name := .str "Bob" }).ctx =
    { demoCtx with active_customer_id := .str "42",
                   active_customer_name := .str "Bob" } :=
  C6_active_entity_frame
    { demoCrm with search_customers :=
        { success := true, message := "ok",
          data := .arr [.obj [("id", Json.int 1), ("name", .str "Alice")],
                        .obj [("id", Json.int 2), ("name", .str "Alice")]] } }
    (.obj [("name", .str "Alice")])
    { demoCtx with active_customer_id := .str "42",
                   active_customer_name := .str "Bob" }
    [.obj [("id", Json.int 1), ("name", .str "Alice")],
     .obj [("id", Json.int 2), ("name", .str "Alice")]]
    rfl (by decide)

/-- C5: a customer search returning exactly one match auto-fetches the full
record through `getCustomer` and stores its stringified id and its name as
the session's active entity; a subsequent update in the same session whose
parameters carry no id calls `updateCustomer` with that stored id; and with
neither an id parameter nor an active entity, the update fails with the
search-first prompt and no CRM call. -/
theorem C5_active_entity_roundtrip (crm : CrmEnv) (ctx : ConversationContext)
    (pkvs upkvs c0kvs ckvs : List (String × Json))
    (h1 : crm.search_customers.success = true)
    (h2 : crm.search_customers.data = .arr [.obj c0kvs])
    (h3 : (dictGet c0kvs "id").isNull = false)
    (h4 : (crm.get_customer (pyStr (dictGet c0kvs "id"))).success = true)
    (h5 : (crm.get_customer (pyStr (dictGet c0kvs "id"))).data =
      .obj [("customer", .obj ckvs)])
    (h6 : ckvs ≠ [])
    (h7 : (dictGet ckvs "id").isNull = false)
    (h8 : pyStr (dictGet ckvs "id") ≠ "")
    (hup : dictGet upkvs "id" = .null) :
    (search_customers_op crm (.obj pkvs) ctx).ctx.active_customer_id =
      .str (pyStr (dictGet ckvs "id")) ∧
    (search_customers_op crm (.obj pkvs) ctx).ctx.active_customer_name =
      dictGet ckvs "name" ∧
    (search_customers_op crm (.obj pkvs) ctx).calls =
      [.searchCustomers (dictGet pkvs "name") (dictGet pkvs "email")
         (dictGet pkvs "phone") (dictGet pkvs "company")
         (dictGetD pkvs "limit" (Json.int 10)),
       .getCustomer (pyStr (dictGet c0kvs "id"))] ∧
    (update_customer_op crm (.obj upkvs)
        (search_customers_op crm (.obj pkvs) ctx).ctx).calls =
      [.updateCustomer (.str (pyStr (dictGet ckvs "id")))
        (upkvs.filter fun kv => kv.1 != "id" && !kv.2.isNull)] ∧
    (∀ ctx0 : ConversationContext, ctx0.active_customer_id = .null →
      (update_customer_op crm (.obj upkvs) ctx0).calls = [] ∧
      (update_customer_op crm (.obj upkvs) ctx0).result =
        .ok { success := false,
              message := "更新客户需要提供客户ID（或先搜索并选择客户）" }) := by
  obtain ⟨a, l, rfl⟩ : ∃ a l, ckvs = a :: l := by
    cases ckvs with
    | nil => exact absurd rfl h6
    | cons a l => exact ⟨a, l, rfl⟩
  have hcust : dictGet [("customer", Json.obj (a :: l))] "customer" =
      .obj (a :: l) := rfl
  have hsearch : search_customers_op crm (.obj pkvs) ctx =
      ⟨.ok { success := true, message := single_customer_message (a :: l),
             customers := some (.arr [.obj (a :: l)]) },
       { ctx with active_customer_id := .str (pyStr (dictGet (a :: l) "id")),
                  active_customer_name := dictGet (a :: l) "name" },
       [.searchCustomers (dictGet pkvs "name") (dictGet pkvs "email")
          (dictGet pkvs "phone") (dictGet pkvs "company")
          (dictGetD pkvs "limit" (Json.int 10)),
        .getCustomer (pyStr (dictGet c0kvs "id"))]⟩ := by
    rw [search_customers_op]
    simp only [h1, h2, if_true, normalize_customers, Json.truthy, List.isEmpty,
      Bool.not_false, Bool.not_true, pyLen, pyIndex0, pyGet, h3, h4, h5, hcust, h7]
    simp
  have hactive : (Json.str (pyStr (dictGet (a :: l) "id"))).truthy = true := by
    simp [Json.truthy, h8]
  have hnullt : Json.truthy .null = false := rfl
  refine ⟨by rw [hsearch], by rw [hsearch], by rw [hsearch], ?_, ?_⟩
  · rw [hsearch]
    dsimp only
    rw [update_customer_op]
    simp only [hup, hnullt, Bool.false_eq_true, if_false, hactive, if_true]
    split <;> rfl
  · intro ctx0 hnull
    rw [update_customer_op]
    simp only [hup, hnull, hnullt, Bool.false_eq_true, if_false]
    exact ⟨trivial, trivial⟩

/-- C5, witness: the spec's own scenario — searching "Alice" finds the single
customer with id 42, the detail record is remembered, and an id-less update
then targets customer "42"; without the memory the update fails asking to
search first. -/
theorem C5_active_entity_roundtrip_witness :
    (search_customers_op aliceCrm (.obj [("name", .str "Alice")]) demoCtx).ctx.active_customer_id
      = .str "42" ∧
    (update_customer_op aliceCrm (.obj [("phone", .str "555")])
      (search_customers_op aliceCrm (.obj [("name", .str "Alice")]) demoCtx).ctx).calls =
      [.updateCustomer (.str "42") [("phone", .str "555")]] ∧
    (update_customer_op aliceCrm (.obj [("phone", .str "555")]) demoCtx).calls = [] := by
  have h := C5_active_entity_roundtrip aliceCrm demoCtx
    [("name", .str "Alice")] [("phone", .str "555")]
    [("id", Json.int 42), ("name", .str "Alice")]
    [("id", Json.int 42), ("name", .str "Alice"), ("email", .str "alice@example.com")]
    rfl rfl rfl rfl rfl (by simp) rfl (by decide) rfl
  exact ⟨h.1, h.2.2.2.1, (h.2.2.2.2 demoCtx rfl).1⟩

/-- When every element is a dict, the `product_id` comprehension succeeds. -/
theorem mapE_pyGet_all_obj (k : String) (ps : List Json)
    (h : ∀ p ∈ ps, ∃ kvs, p = .obj kvs) :
    mapE (fun p => pyGet p k) ps = .ok (ps.map fun p => objGet p k) := by
  induction ps with
  | nil => rfl
  | cons x xs ih =>
      obtain ⟨kvs, rfl⟩ := h x (by simp)
      have ih' := ih (fun p hp => h p (by simp [hp]))
      simp only [mapE, ih']
      rfl

/-- When every element is a dict, the quantity comprehension succeeds. -/
theorem mapE_pair_all_obj (ps : List Json)
    (h : ∀ p ∈ ps, ∃ kvs, p = .obj kvs) :
    mapE (fun p =>
        match pyGet p "product_id", pyGetD p "quantity" (Json.int 1) with
        | .ok k, .ok v => .ok (k, v)
        | .error e, _ => .error e
        | _, .error e => .error e) ps =
      .ok (ps.map fun p =>
        (objGet p "product_id", objGetD p "quantity" (Json.int 1))) := by
  induction ps with
  | nil => rfl
  | cons x xs ih =>
      obtain ⟨kvs, rfl⟩ := h x (by simp)
      have ih' := ih (fun p hp => h p (by simp [hp]))
      simp only [mapE, ih']
      rfl

/-- C7: order creation requires a truthy `customer_id` and a truthy
`products`, otherwise it fails naming the missing field with zero CRM calls;
with both present (a non-empty list of dicts) it calls `createOrder` exactly
once, with the product-id list in input order and the quantity map keyed by
product id, quantity defaulting to 1 per line. -/
theorem C7_order_creation (crm : CrmEnv) (ctx : ConversationContext)
    (pkvs : List (String × Json)) :
    ((dictGet pkvs "customer_id").truthy = false →
      (create_order_op crm (.obj pkvs) ctx).calls = [] ∧
      (create_order_op crm (.obj pkvs) ctx).result =
        .ok { success := false,
              message := "I need a customer to create an order. Could you specify which customer?",
              missing_fields := ["customer_id"] }) ∧
    ((dictGet pkvs "customer_id").truthy = true →
      (dictGet pkvs "products").truthy = false →
      (create_order_op crm (.obj pkvs) ctx).calls = [] ∧
      (create_order_op crm (.obj pkvs) ctx).result =
        .ok { success := false,
              message := "I need at least one product to create an order. Which products would you like to include?",
              missing_fields := ["products"] }) ∧
    (∀ ps : List Json, (dictGet pkvs "customer_id").truthy = true →
      dictGet pkvs "products" = .arr ps → ps ≠ [] →
      (∀ p ∈ ps, ∃ kvs, p = .obj kvs) →
      (create_order_op crm (.obj pkvs) ctx).calls =
        [.createOrder ⟨dictGet pkvs "customer_id",
          ps.map (fun p => objGet p "product_id"),
          (ps.map fun p =>
            (objGet p "product_id", objGetD p "quantity" (Json.int 1))).foldl
            (fun acc kv => assocSetJ acc kv.1 kv.2) [],
          dictGet pkvs "notes"⟩]) := by
  refine ⟨fun hcid => ?_, fun hcid hprod => ?_, fun ps hcid hprod hne hall => ?_⟩
  · rw [create_order_op]
    dsimp only
    rw [if_pos (by simp [hcid])]
    exact ⟨rfl, rfl⟩
  · rw [create_order_op]
    dsimp only
    rw [if_neg (by simp [hcid]), if_pos (by simp [hprod])]
    exact ⟨rfl, rfl⟩
  · obtain ⟨q, qs, rfl⟩ : ∃ q qs, ps = q :: qs := by
      cases ps with
      | nil => exact absurd rfl hne
      | cons q qs => exact ⟨q, qs, rfl⟩
    rw [create_order_op]
    dsimp only
    rw [if_neg (by simp [hcid]), hprod, if_neg (by simp [Json.truthy])]
    dsimp only [pyIter]
    rw [mapE_pyGet_all_obj "product_id" (q :: qs) hall]
    dsimp only
    rw [mapE_pair_all_obj (q :: qs) hall]
    dsimp only
    split
    · split <;> rfl
    · rfl

/-- C7, witness: the spec's scenario C — products
`[{product_id: "5", quantity: 2}, {product_id: "7"}]` produce the id list
`["5", "7"]` and the quantity map `{"5": 2, "7": 1}` in one `createOrder`
call, and the two missing-field failures issue no call. -/
theorem C7_order_creation_witness :
    (create_order_op demoCrm
      (.obj [("customer_id", .str "c1"),
             ("products", .arr
               [.obj [("product_id", .str "5"), ("quantity", Json.int 2)],
                .obj [("product_id", .str "7")]])]) demoCtx).calls =
      [.createOrder ⟨.str "c1", [.str "5", .str "7"],
        [(.str "5", Json.int 2), (.str "7", Json.int 1)], .null⟩] ∧
    (create_order_op demoCrm (.obj []) demoCtx).calls = [] ∧
    (create_order_op demoCrm (.obj [("customer_id", .str "c1")]) demoCtx).result =
      .ok { success := false,
            message := "I need at least one product to create an order. Which products would you like to include?",
            missing_fields := ["products"] } := by
  refine ⟨?_, ?_, ?_⟩
  · exact (C7_order_creation demoCrm demoCtx
      [("customer_id", .str "c1"),
       ("products", .arr
         [.obj [("product_id", .str "5"), ("quantity", Json.int 2)],
          .obj [("product_id", .str "7")]])]).2.2
      [.obj [("product_id", .str "5"), ("quantity", Json.int 2)],
       .obj [("product_id", .str "7")]]
      rfl rfl (by simp)
      (by intro p hp
          simp only [List.mem_cons, List.mem_singleton] at hp
          rcases hp with h | h | h
          · exact ⟨_, h⟩
          · exact ⟨_, h⟩
          · exact absurd h (by simp))
  · exact ((C7_order_creation demoCrm demoCtx []).1 rfl).1
  · exact ((C7_order_creation demoCrm demoCtx [("customer_id", .str "c1")]).2.1
      rfl rfl).2

/-- C8: every product search concatenates the truthy `name`, `category` and
`sku` parameters (here strings) into one space-joined free-text query and
calls `searchProducts` exactly once with it; a bare-list adapter response and
a successful `OperationResult` whose data dict holds the list are both
normalized to a success envelope with a `products` list, and a failed
`OperationResult` yields a failure envelope. -/
theorem C8_product_search (crm : CrmEnv) (ctx : ConversationContext)
    (pkvs : List (String × Json))
    (hstr : ∀ f ∈ ["name", "category", "sku"], (dictGet pkvs f).truthy = true →
      ∃ s, dictGet pkvs f = .str s) :
    (search_products_op crm (.obj pkvs) ctx).calls =
      [.searchProducts
        (String.intercalate " "
          (((["name", "category", "sku"].filter fun f =>
              (dictGet pkvs f).truthy).map fun f => dictGet pkvs f).map pyStr))
        (dictGetD pkvs "limit" (Json.int 10))] ∧
    (∀ xs, crm.search_products = .list xs →
      ∃ env, (search_products_op crm (.obj pkvs) ctx).result = .ok env ∧
        env.success = true ∧ env.products = some (.arr xs)) ∧
    (∀ r dkvs prods, crm.search_products = .res r → r.success = true →
      r.data = .obj dkvs → dictGetD dkvs "products" (.arr []) = .arr prods →
      ∃ env, (search_products_op crm (.obj pkvs) ctx).result = .ok env ∧
        env.success = true ∧ env.products = some (.arr prods)) ∧
    (∀ r, crm.search_products = .res r → r.success = false →
      ∃ env, (search_products_op crm (.obj pkvs) ctx).result = .ok env ∧
        env.success = false ∧
        env.message = "Failed to search products: " ++ r.message) := by
  have hall : ((["name", "category", "sku"].filter fun f =>
      (dictGet pkvs f).truthy).map fun f => dictGet pkvs f).all
        (fun p => match p with | .str _ => true | _ => false) = true := by
    rw [List.all_eq_true]
    intro p hp
    rw [List.mem_map] at hp
    obtain ⟨f, hf, rfl⟩ := hp
    rw [List.mem_filter] at hf
    obtain ⟨s, hs⟩ := hstr f hf.1 hf.2
    rw [hs]
  refine ⟨?_, fun xs hsp => ?_, fun r dkvs prods hsp hrs hrd hprods => ?_,
    fun r hsp hrs => ?_⟩
  · rw [search_products_op]
    dsimp only
    rw [if_pos hall]
    cases hsp : crm.search_products with
    | list xs => cases xs <;> rfl
    | res r =>
        cases hrs : r.success with
        | false => simp [hrs]
        | true =>
            simp only [hrs, if_true]
            cases hd : r.data with
            | obj dkvs =>
                dsimp only [pyGetD]
                cases hq : dictGetD dkvs "products" (.arr []) with
                | arr prods => cases prods <;> simp [Json.truthy, pyLen]
                | null => simp [Json.truthy]
                | bool b => cases b <;> simp [Json.truthy, pyLen]
                | num q =>
                    by_cases hm : q.mant = 0 <;> simp [Json.truthy, hm, pyLen]
                | str s =>
                    by_cases hs : s = "" <;> simp [Json.truthy, hs, pyLen]
                | obj kvs2 => cases kvs2 <;> simp [Json.truthy, pyLen]
            | null => rfl
            | bool b => rfl
            | num q => rfl
            | str s => rfl
            | arr xs => rfl
  · rw [search_products_op]
    dsimp only
    rw [if_pos hall, hsp]
    cases xs with
    | nil => exact ⟨_, rfl, rfl, rfl⟩
    | cons y ys => exact ⟨_, rfl, rfl, rfl⟩
  · rw [search_products_op]
    dsimp only
    rw [if_pos hall, hsp]
    simp only [hrs, if_true, hrd]
    dsimp only [pyGetD]
    rw [hprods]
    cases prods with
    | nil => exact ⟨_, rfl, rfl, rfl⟩
    | cons y ys =>
        simp only [Json.truthy, List.isEmpty, Bool.not_false, if_true, pyLen]
        exact ⟨_, rfl, rfl, rfl⟩
  · rw [search_products_op]
    dsimp only
    rw [if_pos hall, hsp]
    simp only [hrs, Bool.false_eq_true, if_false]
    exact ⟨_, rfl, rfl, rfl⟩

/-- C8, witness: a name+category search issues one `searchProducts` call with
query `"laptop electronics"`; the bare-list shape and the wrapped dict shape
both normalize, and a failed result reports failure. -/
theorem C8_product_search_witness :
    (search_products_op listProductsCrm
      (.obj [("name", .str "laptop"), ("category", .str "electronics")])
      demoCtx).calls =
      [.searchProducts "laptop electronics" (Json.int 10)] ∧
    (∃ env, (search_products_op wrappedProductsCrm
        (.obj [("name", .str "laptop")]) demoCtx).result = .ok env ∧
      env.success = true ∧
      env.products = some (.arr [.obj [("id", Json.int 5)]])) := by
  constructor
  · exact (C8_product_search listProductsCrm
      demoCtx [("name", .str "laptop"), ("category", .str "electronics")]
      (by intro f hf ht
          fin_cases hf
          · exact ⟨"laptop", rfl⟩
          · exact ⟨"electronics", rfl⟩
          · exact absurd ht (by decide))).1
  · exact (C8_product_search wrappedProductsCrm demoCtx [("name", .str "laptop")]
      (by intro f hf ht
          fin_cases hf
          · exact ⟨"laptop", rfl⟩
          · exact absurd ht (by decide)
          · exact absurd ht (by decide))).2.2.1
      wrappedProductsRes
      [("products", .arr [.obj [("id", Json.int 5)]])]
      [.obj [("id", Json.int 5)]] rfl rfl rfl rfl

end CrmSpec
